import Mathlib

/-!
Verification of the order-lifecycle and payment core of the ms3-order-service
repository against its specification.

The TypeScript services are shallowly embedded: JavaScript numbers that hold
money are modelled as exact rationals (ℚ), `Number.toFixed(2)` as rounding to
the nearest multiple of 1/100, quantities and timestamps as integers, the
relational store (sequelize models `Pedido`, `ProductoPedido`, `Pago`,
`MetodoPago`) as lists of records, and the external HTTP collaborators
(inventory, promotions, clients, tables, email, PDF generation) as an
environment record with explicit failure flags.  Fallible service methods
return an `SR` value mirroring the `ServiceResult` type of the source
(`ok` / returned error status / propagated exception).
-/

/- ------------------------------------------------------------------ -/
/- Money: 2-decimal rounding (JS `Number(x.toFixed(2))`)              -/
/- ------------------------------------------------------------------ -/

/-- Executable floor on ℚ (kernel-friendly form of `Int.floor`). -/
def ratFloor (q : ℚ) : ℤ := q.num / q.den

theorem ratFloor_eq_floor (q : ℚ) : ratFloor q = ⌊q⌋ := by
  rw [Rat.floor_def]; rfl

/-- `Number(x.toFixed(2))`: round to the nearest multiple of 1/100
(half away from zero on decimals; modelled as round-half-up, which agrees
on every non-tie value used in this development). -/
def round2 (q : ℚ) : ℚ := (ratFloor (100 * q + 1 / 2) : ℚ) / 100

theorem round2_eq (q : ℚ) : round2 q = ((round (100 * q) : ℤ) : ℚ) / 100 := by
  rw [round2, ratFloor_eq_floor, round_eq]

/-- A rational that is a whole number of cents, i.e. representable in the
`DECIMAL(10,2)` columns used for money by the sequelize models. -/
def IsCents (q : ℚ) : Prop := ∃ n : ℤ, q = n / 100

theorem round2_mono {x y : ℚ} (h : x ≤ y) : round2 x ≤ round2 y := by
  rw [round2_eq, round2_eq]
  have h1 : round (100 * x) ≤ round (100 * y) := by
    rw [round_eq, round_eq]; exact Int.floor_mono (by linarith)
  have h2 : ((round (100 * x) : ℤ) : ℚ) ≤ ((round (100 * y) : ℤ) : ℚ) := by exact_mod_cast h1
  linarith

theorem IsCents.round2_fix {q : ℚ} (h : IsCents q) : round2 q = q := by
  obtain ⟨n, rfl⟩ := h
  rw [round2_eq]
  have h1 : (100 : ℚ) * ((n : ℚ) / 100) = ((n : ℤ) : ℚ) := by ring
  rw [h1, round_intCast]

theorem round2_nonneg {q : ℚ} (h : 0 ≤ q) : 0 ≤ round2 q := by
  rw [round2_eq]
  have h1 : (0 : ℤ) ≤ round (100 * q) := by
    rw [round_eq]; exact Int.floor_nonneg.mpr (by linarith)
  have h2 : (0 : ℚ) ≤ ((round (100 * q) : ℤ) : ℚ) := by exact_mod_cast h1
  linarith

theorem round2_isCents (q : ℚ) : IsCents (round2 q) := ⟨ratFloor (100 * q + 1 / 2), rfl⟩

theorem IsCents.add {a b : ℚ} (ha : IsCents a) (hb : IsCents b) : IsCents (a + b) := by
  obtain ⟨m, rfl⟩ := ha; obtain ⟨n, rfl⟩ := hb
  exact ⟨m + n, by push_cast; ring⟩

theorem IsCents.zero : IsCents 0 := ⟨0, by norm_num⟩

theorem IsCents.intMul {a : ℚ} (ha : IsCents a) (k : ℤ) : IsCents ((k : ℚ) * a) := by
  obtain ⟨m, rfl⟩ := ha
  exact ⟨k * m, by push_cast; ring⟩

theorem IsCents.mul_int {a : ℚ} (ha : IsCents a) (k : ℤ) : IsCents (a * (k : ℚ)) := by
  rw [mul_comm]; exact ha.intMul k

/-- Compute `round2 q` from floor bounds on `100*q + 1/2` (used to evaluate
concrete roundings, since ℚ arithmetic does not kernel-reduce). -/
theorem round2_eq_of (q : ℚ) (n : ℤ) (h1 : (n : ℚ) ≤ 100 * q + 1 / 2)
    (h2 : 100 * q + 1 / 2 < n + 1) : round2 q = (n : ℚ) / 100 := by
  rw [round2, ratFloor_eq_floor]
  rw [Int.floor_eq_iff.mpr ⟨h1, h2⟩]

/- ------------------------------------------------------------------ -/
/- External world: inventory, promotions, clients, tables, PDF, email -/
/- ------------------------------------------------------------------ -/

/-- An inventory product as returned by `InventoryService.getProductoById`. -/
structure Producto where
  precio : ℚ
  activo : Bool
  stockActual : ℤ
  deriving DecidableEq

/-- Promotion detail (`PromocionDto`): active flag and validity window. -/
structure PromocionDto where
  activo : Bool
  fechaInicio : ℤ
  fechaFin : ℤ
  deriving DecidableEq

/-- A product-promotion rule (`ProductoPromocionConDetalle`): minimum
quantity together with either a fixed promotional price or a percent
discount, plus the embedded promotion detail (possibly absent). -/
structure ProductoPromocionConDetalle where
  detallePromocion : Option PromocionDto
  cantidadMinima : ℤ
  precioPromocional : Option ℚ
  porcentajeDescuento : Option ℚ
  deriving DecidableEq

/-- A registered client as returned by `ClientService.getClientById`. -/
structure Cliente where
  email : String
  nombre : String
  direccion : Option String
  deriving DecidableEq

/-- A table as returned by `TableService.getAllMesas`. -/
structure Mesa where
  idMesa : ℕ
  numeroMesa : ℕ
  estado : String
  deriving DecidableEq

/-- The external collaborators reached over HTTP, with explicit failure
flags for the calls that can throw.  `inventario p = none` models a 404
(the HTTP client returns `null`); `inventarioFalla p = true` models any
other failure (the HTTP client throws). -/
structure Env where
  inventario : ℕ → Option Producto
  inventarioFalla : ℕ → Bool
  promociones : ℕ → Option (List ProductoPromocionConDetalle)
  promocionesFalla : ℕ → Bool
  clientes : ℕ → Option Cliente
  mesas : List Mesa
  mesasFalla : Bool
  mesaUpdateFalla : Bool
  pdfFalla : Bool
  ahora : ℤ

/- ------------------------------------------------------------------ -/
/- PriceCalculatorService                                             -/
/- ------------------------------------------------------------------ -/

/-- Result of `calcularPrecioConPromocion` (`PriceCalculationResult`). -/
structure PriceCalculationResult where
  precioOriginal : ℚ
  precioFinal : ℚ
  descuentoAplicado : ℚ
  porcentajeDescuento : ℚ
  promocionAplicada : Option ProductoPromocionConDetalle
  tienePromocion : Bool
  deriving DecidableEq

/-- Result of the private `calcularDescuento`. -/
structure DescuentoResult where
  precioFinal : ℚ
  descuentoCalculado : ℚ
  deriving DecidableEq

/-- `PriceCalculatorService.esPromocionValida`: the promotion detail is
present, active, and `ahora` lies within `[fechaInicio, fechaFin]`. -/
def esPromocionValida (detallePromocion : Option PromocionDto) (ahora : ℤ) : Bool :=
  match detallePromocion with
  | none => false
  | some dp => dp.activo && decide (dp.fechaInicio ≤ ahora) && decide (ahora ≤ dp.fechaFin)

/-- `PriceCalculatorService.calcularDescuento`: a fixed promotional price
takes priority (its discount is expressed as a percent of the original
price); otherwise a percent discount applies; both outputs pass through
`toFixed(2)`.  JS division by zero is idealized by ℚ division
(`x / 0 = 0`), which only differs on a zero original price. -/
def calcularDescuento (pp : ProductoPromocionConDetalle) (precioOriginal : ℚ) :
    DescuentoResult :=
  match pp.precioPromocional with
  | some fijo =>
      { precioFinal := round2 fijo
        descuentoCalculado := round2 (((precioOriginal - fijo) / precioOriginal) * 100) }
  | none =>
      match pp.porcentajeDescuento with
      | some pct =>
          { precioFinal := round2 (precioOriginal * (1 - pct / 100))
            descuentoCalculado := round2 pct }
      | none =>
          { precioFinal := round2 precioOriginal
            descuentoCalculado := round2 0 }

/-- Accumulator of the selection loop in `seleccionarMejorPromocion`:
`(mejorPromocion, mayorDescuento, precioConDescuento)`. -/
structure MejorSel where
  mejorPromocion : Option ProductoPromocionConDetalle
  mayorDescuento : ℚ
  precioConDescuento : ℚ
  deriving DecidableEq

/-- The `for` loop of `seleccionarMejorPromocion`: skip promotions that are
not valid now or whose minimum quantity exceeds the requested quantity;
keep the one with the strictly largest computed discount (first seen wins
ties). -/
def seleccionarLoop (ahora : ℤ) (precioOriginal : ℚ) (cantidad : ℤ)
    (promociones : List ProductoPromocionConDetalle) (acc : MejorSel) : MejorSel :=
  match promociones with
  | [] => acc
  | pp :: rest =>
      let acc' :=
        if esPromocionValida pp.detallePromocion ahora = false then acc
        else if cantidad < pp.cantidadMinima then acc
        else
          let r := calcularDescuento pp precioOriginal
          if acc.mayorDescuento < r.descuentoCalculado then
            ⟨some pp, r.descuentoCalculado, r.precioFinal⟩
          else acc
      seleccionarLoop ahora precioOriginal cantidad rest acc'

/-- `PriceCalculatorService.seleccionarMejorPromocion`. -/
def seleccionarMejorPromocion (promociones : List ProductoPromocionConDetalle)
    (precioOriginal : ℚ) (cantidad : ℤ) (ahora : ℤ) :
    Option (ProductoPromocionConDetalle × ℚ × ℚ) :=
  let sel := seleccionarLoop ahora precioOriginal cantidad promociones
    ⟨none, 0, precioOriginal⟩
  match sel.mejorPromocion with
  | some pp => some (pp, sel.precioConDescuento, sel.mayorDescuento)
  | none => none

/-- `PriceCalculatorService.buildResultSinPromocion`. -/
def buildResultSinPromocion (precioOriginal : ℚ) : PriceCalculationResult :=
  { precioOriginal := precioOriginal
    precioFinal := precioOriginal
    descuentoAplicado := 0
    porcentajeDescuento := 0
    promocionAplicada := none
    tienePromocion := false }

/-- `PriceCalculatorService.buildResultConPromocion`. -/
def buildResultConPromocion (precioOriginal precioFinal porcentajeDescuento : ℚ)
    (promocion : ProductoPromocionConDetalle) : PriceCalculationResult :=
  { precioOriginal := precioOriginal
    precioFinal := round2 precioFinal
    descuentoAplicado := round2 (precioOriginal - precioFinal)
    porcentajeDescuento := round2 porcentajeDescuento
    promocionAplicada := some promocion
    tienePromocion := true }

/-- `PriceCalculatorService.calcularPrecioConPromocion`.  `precioOriginal`
starts at 0; a failing or 404 inventory fetch throws before it is
assigned, and the surrounding `catch` then returns the zero-price
no-promotion result.  A failing promotion fetch throws after the base
price is assigned, so the catch returns the base price.  An absent or
empty promotion list returns the base price without a promotion. -/
def calcularPrecioConPromocion (env : Env) (idProducto : ℕ) (cantidad : ℤ) :
    PriceCalculationResult :=
  if env.inventarioFalla idProducto then buildResultSinPromocion 0
  else
    match env.inventario idProducto with
    | none => buildResultSinPromocion 0
    | some producto =>
        if env.promocionesFalla idProducto then buildResultSinPromocion producto.precio
        else
          match env.promociones idProducto with
          | none => buildResultSinPromocion producto.precio
          | some promociones =>
              if promociones.isEmpty then buildResultSinPromocion producto.precio
              else
                match seleccionarMejorPromocion promociones producto.precio cantidad
                    env.ahora with
                | some (pp, precioFinal, descuento) =>
                    buildResultConPromocion producto.precio precioFinal descuento pp
                | none => buildResultSinPromocion producto.precio

/- ------------------------------------------------------------------ -/
/- Relational store: Pedido, ProductoPedido, Pago, MetodoPago         -/
/- ------------------------------------------------------------------ -/

/-- An order row (`Pedido` model). -/
structure Pedido where
  idPedido : ℕ
  idUsuario : ℕ
  total : ℚ
  estado : String
  canalVenta : String
  fechaPedido : ℤ
  direccionEntrega : Option String
  idMesa : Option ℕ
  deriving DecidableEq

/-- An order-line row (`ProductoPedido` model). -/
structure ProductoPedido where
  idProductoPedido : ℕ
  idPedido : ℕ
  idProducto : ℕ
  cantidad : ℤ
  precioUnitario : ℚ
  subtotal : ℚ
  deriving DecidableEq

/-- A payment row (`Pago` model). -/
structure Pago where
  idPago : ℕ
  idPedido : ℕ
  idMetodoPago : ℕ
  monto : ℚ
  fechaPago : ℤ
  urlComprobante : String
  deriving DecidableEq

/-- A payment-method row (`MetodoPago` model). -/
structure MetodoPago where
  idMetodo : ℕ
  nombre : String
  deriving DecidableEq

/-- The database: tables plus auto-increment counters. -/
structure DB where
  pedidos : List Pedido
  productosPedido : List ProductoPedido
  pagos : List Pago
  metodosPago : List MetodoPago
  nextPedido : ℕ
  nextProductoPedido : ℕ
  nextPago : ℕ
  deriving DecidableEq

/-- `pedidoRepository.findById`. -/
def findPedido (db : DB) (idPedido : ℕ) : Option Pedido :=
  db.pedidos.find? (fun p => p.idPedido == idPedido)

/-- `productoPedidoRepository.findById` / `ProductoPedido.findByPk`. -/
def findProductoPedido (db : DB) (idProductoPedido : ℕ) : Option ProductoPedido :=
  db.productosPedido.find? (fun l => l.idProductoPedido == idProductoPedido)

/-- `productoPedidoRepository.findByPedido`. -/
def productosByPedido (db : DB) (idPedido : ℕ) : List ProductoPedido :=
  db.productosPedido.filter (fun l => l.idPedido == idPedido)

/-- `pagoRepository.findOne({where: {idPedido}})` / `findByPedido`. -/
def pagosByPedido (db : DB) (idPedido : ℕ) : List Pago :=
  db.pagos.filter (fun g => g.idPedido == idPedido)

/-- `metodoPagoRepository.findById`. -/
def findMetodoPago (db : DB) (idMetodo : ℕ) : Option MetodoPago :=
  db.metodosPago.find? (fun m => m.idMetodo == idMetodo)

/-- `pedidoRepository.findOne({where: {idUsuario, estado: 'sin_confirmar'}})`:
the customer's current cart. -/
def findCarrito (db : DB) (idUsuario : ℕ) : Option Pedido :=
  db.pedidos.find? (fun p => p.idUsuario == idUsuario && p.estado == "sin_confirmar")

/-- `pedidoRepository.update(id, ...)` restricted to the fields written. -/
def updatePedidoWith (db : DB) (idPedido : ℕ) (f : Pedido → Pedido) : DB :=
  { db with pedidos := db.pedidos.map (fun p => if p.idPedido == idPedido then f p else p) }

/-- `productoPedidoRepository.update(id, ...)`. -/
def updateProductoPedidoWith (db : DB) (idProductoPedido : ℕ)
    (f : ProductoPedido → ProductoPedido) : DB :=
  { db with productosPedido :=
      db.productosPedido.map (fun l => if l.idProductoPedido == idProductoPedido then f l else l) }

/-- `pagoRepository.update(id, ...)`. -/
def updatePagoWith (db : DB) (idPago : ℕ) (f : Pago → Pago) : DB :=
  { db with pagos := db.pagos.map (fun g => if g.idPago == idPago then f g else g) }

/-- `productoPedido.destroy()`. -/
def deleteProductoPedido (db : DB) (idProductoPedido : ℕ) : DB :=
  { db with productosPedido :=
      db.productosPedido.filter (fun l => !(l.idProductoPedido == idProductoPedido)) }

/-- `pedido.destroy()`: deletes the order and cascades to its lines. -/
def deletePedidoCascade (db : DB) (idPedido : ℕ) : DB :=
  { db with
      pedidos := db.pedidos.filter (fun p => !(p.idPedido == idPedido))
      productosPedido := db.productosPedido.filter (fun l => !(l.idPedido == idPedido)) }

/-- `pedidoRepository.create`: inserts with the next auto-increment id. -/
def createPedido (db : DB) (idUsuario : ℕ) (total : ℚ) (estado canalVenta : String)
    (fechaPedido : ℤ) (direccionEntrega : Option String) (idMesa : Option ℕ) :
    Pedido × DB :=
  let p : Pedido :=
    ⟨db.nextPedido, idUsuario, total, estado, canalVenta, fechaPedido, direccionEntrega, idMesa⟩
  (p, { db with pedidos := db.pedidos ++ [p], nextPedido := db.nextPedido + 1 })

/-- `productoPedidoRepository.create`. -/
def createProductoPedido (db : DB) (idPedido idProducto : ℕ) (cantidad : ℤ)
    (precioUnitario subtotal : ℚ) : ProductoPedido × DB :=
  let l : ProductoPedido :=
    ⟨db.nextProductoPedido, idPedido, idProducto, cantidad, precioUnitario, subtotal⟩
  (l, { db with productosPedido := db.productosPedido ++ [l]
                nextProductoPedido := db.nextProductoPedido + 1 })

/-- `pagoRepository.create`. -/
def createPago (db : DB) (idPedido idMetodoPago : ℕ) (monto : ℚ) (fechaPago : ℤ)
    (urlComprobante : String) : Pago × DB :=
  let g : Pago := ⟨db.nextPago, idPedido, idMetodoPago, monto, fechaPago, urlComprobante⟩
  (g, { db with pagos := db.pagos ++ [g], nextPago := db.nextPago + 1 })

/-- `productosDelPedido.reduce((sum, prod) => sum + Number(prod.subtotal), 0)`. -/
def linesTotal (db : DB) (idPedido : ℕ) : ℚ :=
  ((productosByPedido db idPedido).map (fun l => l.subtotal)).sum

/-- Service call outcome, mirroring `ServiceResult`: success payload,
returned error with HTTP status, or an exception propagated to the
boundary layer. -/
inductive SR (α : Type) where
  | ok : α → SR α
  | err : ℕ → SR α
  | exn : SR α
  deriving DecidableEq

def SR.isOk {α : Type} : SR α → Bool
  | .ok _ => true
  | _ => false

/- ------------------------------------------------------------------ -/
/- CartService                                                        -/
/- ------------------------------------------------------------------ -/

/-- `CartService.addOrUpdateProduct` (private): merge the product into an
existing line (new quantity, subtotal recomputed at the given current
price) or insert a fresh line, then recompute the order total as the sum
of all line subtotals.  The re-fetched updated order is returned
(`none` models the impossible-missing-row crash). -/
def addOrUpdateProduct (db : DB) (idPedido idProducto : ℕ) (cantidad : ℤ)
    (precioUnitario : ℚ) : (ProductoPedido × Option Pedido) × DB :=
  let existente := db.productosPedido.find?
    (fun l => l.idPedido == idPedido && l.idProducto == idProducto)
  let paso1 : ProductoPedido × DB :=
    match existente with
    | some l =>
        let nuevaCantidad := l.cantidad + cantidad
        let nuevoSubtotal := (nuevaCantidad : ℚ) * precioUnitario
        let db1 := updateProductoPedidoWith db l.idProductoPedido
          (fun x => { x with cantidad := nuevaCantidad
                             subtotal := nuevoSubtotal
                             precioUnitario := precioUnitario })
        ({ l with cantidad := nuevaCantidad
                  subtotal := nuevoSubtotal
                  precioUnitario := precioUnitario }, db1)
    | none =>
        createProductoPedido db idPedido idProducto cantidad precioUnitario
          ((cantidad : ℚ) * precioUnitario)
  let db2 := updatePedidoWith paso1.2 idPedido
    (fun p => { p with total := linesTotal paso1.2 idPedido })
  ((paso1.1, findPedido db2 idPedido), db2)

/-- `CartService.addProductToCart`: reject non-positive quantity; 404 when
the product is missing or inactive (an inventory-fetch exception
propagates); find or create the customer's unconfirmed cart; then merge
the line and recompute the total.  Stock is not consulted here. -/
def addProductToCart (env : Env) (db : DB) (idUsuario idProducto : ℕ) (cantidad : ℤ) :
    SR (Pedido × ProductoPedido) × DB :=
  if cantidad ≤ 0 then (.err 400, db)
  else if env.inventarioFalla idProducto then (.exn, db)
  else
    match env.inventario idProducto with
    | none => (.err 404, db)
    | some producto =>
        if producto.activo = false then (.err 404, db)
        else
          let paso : Pedido × DB :=
            match findCarrito db idUsuario with
            | some cart => (cart, db)
            | none => createPedido db idUsuario 0 "sin_confirmar" "web" env.ahora none none
          let r := addOrUpdateProduct paso.2 paso.1.idPedido idProducto cantidad
            producto.precio
          match r.1.2 with
          | some pedidoActualizado => (.ok (pedidoActualizado, r.1.1), r.2)
          | none => (.exn, r.2)

/-- `CartService.removeProductFromCart`: ownership- and state-checked
deletion of a line; the order total is decremented by the removed
subtotal (not recomputed from the remaining lines). -/
def removeProductFromCart (db : DB) (idProductoPedido idUsuario : ℕ) : SR Unit × DB :=
  match findProductoPedido db idProductoPedido with
  | none => (.err 404, db)
  | some lineaPedido =>
      match findPedido db lineaPedido.idPedido with
      | none => (.err 500, db)
      | some pedido =>
          if pedido.idUsuario ≠ idUsuario then (.err 403, db)
          else if pedido.estado ≠ "sin_confirmar" then (.err 400, db)
          else
            let db1 := deleteProductoPedido db idProductoPedido
            let db2 := updatePedidoWith db1 pedido.idPedido
              (fun p => { p with total := pedido.total - lineaPedido.subtotal })
            (.ok (), db2)

/-- `CartService.updateProductQuantity`: ownership- and state-checked;
non-positive new quantity delegates to removal; otherwise the line's
subtotal becomes the new quantity times the stored unit price (no
inventory lookup) and the order total is recomputed from all lines. -/
def updateProductQuantity (db : DB) (idProductoPedido : ℕ) (nuevaCantidad : ℤ)
    (idUsuario : ℕ) : SR (Option ProductoPedido) × DB :=
  match findProductoPedido db idProductoPedido with
  | none => (.err 404, db)
  | some lineaPedido =>
      match findPedido db lineaPedido.idPedido with
      | none => (.err 500, db)
      | some pedido =>
          if pedido.idUsuario ≠ idUsuario then (.err 403, db)
          else if pedido.estado ≠ "sin_confirmar" then (.err 400, db)
          else if nuevaCantidad ≤ 0 then
            match removeProductFromCart db idProductoPedido idUsuario with
            | (.ok _, db') => (.ok none, db')
            | (.err s, db') => (.err s, db')
            | (.exn, db') => (.exn, db')
          else
            let nuevoSubtotal := (nuevaCantidad : ℚ) * lineaPedido.precioUnitario
            let db1 := updateProductoPedidoWith db idProductoPedido
              (fun x => { x with cantidad := nuevaCantidad, subtotal := nuevoSubtotal })
            let db2 := updatePedidoWith db1 pedido.idPedido
              (fun p => { p with total := linesTotal db1 pedido.idPedido })
            (.ok (findProductoPedido db2 idProductoPedido), db2)

/-- `CartService.clearCart`: deletes the customer's unconfirmed order
(cascading its lines) unless a payment is attached. -/
def clearCart (db : DB) (idUsuario : ℕ) : SR Unit × DB :=
  match findCarrito db idUsuario with
  | none => (.err 404, db)
  | some pedido =>
      if (pagosByPedido db pedido.idPedido).isEmpty = false then (.err 400, db)
      else (.ok (), deletePedidoCascade db pedido.idPedido)

/- ------------------------------------------------------------------ -/
/- OrderService                                                       -/
/- ------------------------------------------------------------------ -/

/-- `pagoRepository.findById`. -/
def findPago (db : DB) (idPago : ℕ) : Option Pago :=
  db.pagos.find? (fun g => g.idPago == idPago)

/-- `OrderService.validateProductAvailability` (private), also the
stock re-validation loop of `PaymentService.registerPayment`: for each
line fetch the live product; a fetch failure propagates (`exn`), a
missing or inactive product or insufficient stock yields a 400 result;
the first failing line aborts the scan. -/
def validateProductAvailability (env : Env) : List ProductoPedido → SR Unit
  | [] => .ok ()
  | lineaPedido :: rest =>
      if env.inventarioFalla lineaPedido.idProducto then .exn
      else
        match env.inventario lineaPedido.idProducto with
        | none => .err 400
        | some producto =>
            if producto.activo = false then .err 400
            else if producto.stockActual < lineaPedido.cantidad then .err 400
            else validateProductAvailability env rest

/-- The per-line pricing loop shared (verbatim) by
`OrderService.calculateTotalWithPromotions` and step 4 of
`PaymentService.registerPayment`: reprice each line at the current best
promotion, persist the new `precioUnitario`/`subtotal`, and accumulate
the running total.  (The source wraps each iteration in a `try` whose
fallback keeps the previously stored subtotal; nothing inside the `try`
can fail in this model — `calcularPrecioConPromocion` catches its own
errors — so the fallback branch is dead here.) -/
def calcTotalPromosLoop (env : Env) : List ProductoPedido → ℚ → DB → ℚ × DB
  | [], acc, db => (acc, db)
  | lineaPedido :: rest, acc, db =>
      let calculo := calcularPrecioConPromocion env lineaPedido.idProducto
        lineaPedido.cantidad
      let subtotalConPromocion := calculo.precioFinal * (lineaPedido.cantidad : ℚ)
      let db1 := updateProductoPedidoWith db lineaPedido.idProductoPedido
        (fun x => { x with precioUnitario := calculo.precioFinal
                           subtotal := subtotalConPromocion })
      calcTotalPromosLoop env rest (acc + subtotalConPromocion) db1

/-- `OrderService.confirmOrder`: requires a registered client and a
non-empty unconfirmed cart, re-validates availability of every line,
reprices the lines, then sets the order to `pendiente` stamping the
current date and the resolved delivery address.  The confirmation email
is fire-and-forget and does not touch the store.  No payment check is
made anywhere on this path. -/
def confirmOrder (env : Env) (db : DB) (idUsuario : ℕ)
    (direccionEntrega : Option String) : SR Pedido × DB :=
  match env.clientes idUsuario with
  | none => (.err 403, db)
  | some cliente =>
      match findCarrito db idUsuario with
      | none => (.err 400, db)
      | some carritoPendiente =>
          let productosDelPedido := productosByPedido db carritoPendiente.idPedido
          if productosDelPedido.isEmpty then (.err 400, db)
          else
            match validateProductAvailability env productosDelPedido with
            | .exn => (.exn, db)
            | .err s => (.err s, db)
            | .ok _ =>
                let r := calcTotalPromosLoop env productosDelPedido 0 db
                let totalConPromociones := round2 r.1
                let direccion :=
                  match direccionEntrega with
                  | some d => some d
                  | none => some (cliente.direccion.getD "")
                let db2 := updatePedidoWith r.2 carritoPendiente.idPedido
                  (fun p => { p with total := totalConPromociones
                                     estado := "pendiente"
                                     fechaPedido := env.ahora
                                     direccionEntrega := direccion })
                match findPedido db2 carritoPendiente.idPedido with
                | some pedidoFinal => (.ok pedidoFinal, db2)
                | none => (.exn, db2)

/-- One requested line of `OrderService.createCustomerOrder`. -/
structure ProductInput where
  idProducto : ℕ
  cantidad : ℤ
  deriving DecidableEq

/-- A validated line of `createCustomerOrder`, carrying the price frozen
at validation time. -/
structure ProductoValidado where
  idProducto : ℕ
  cantidad : ℤ
  precioUnitario : ℚ
  deriving DecidableEq

/-- The eager validation loop of `createCustomerOrder`: positive
quantity, product fetched, active and with sufficient stock; collects
the current prices. -/
def validarProductos (env : Env) : List ProductInput → SR (List ProductoValidado)
  | [] => .ok []
  | item :: rest =>
      if item.cantidad ≤ 0 then .err 400
      else if env.inventarioFalla item.idProducto then .exn
      else
        match env.inventario item.idProducto with
        | none => .err 400
        | some producto =>
            if producto.activo = false then .err 400
            else if producto.stockActual < item.cantidad then .err 400
            else
              match validarProductos env rest with
              | .ok validados =>
                  .ok (⟨item.idProducto, item.cantidad, producto.precio⟩ :: validados)
              | .err s => .err s
              | .exn => .exn

/-- The line-insertion loop of `createCustomerOrder`: creates each line at
its validated price with `subtotal = precio * cantidad`, accumulating the
order total. -/
def insertarLineas (db : DB) (idPedido : ℕ) :
    List ProductoValidado → List ProductoPedido → ℚ → (List ProductoPedido × ℚ) × DB
  | [], creados, totalPedido => ((creados, totalPedido), db)
  | item :: rest, creados, totalPedido =>
      let subtotal := item.precioUnitario * (item.cantidad : ℚ)
      let r := createProductoPedido db idPedido item.idProducto item.cantidad
        item.precioUnitario subtotal
      insertarLineas r.2 idPedido rest (creados ++ [r.1]) (totalPedido + subtotal)

/-- `OrderService.createCustomerOrder` (staff-entered in-person order),
executed under a transaction modelled from the spec as all-or-nothing over
the local store: eager validation of every line and (when dined-in) of the
table, then creation of the order as `sin_confirmar`, insertion of all
lines at current prices, total update, receipt generation, and table
occupation; any failure rolls the local store back.  Note that it creates
a fresh unconfirmed order unconditionally — it never looks for an
existing unconfirmed order of the same user. -/
def createCustomerOrder (env : Env) (db : DB) (idUsuarioEmpleado : ℕ)
    (productos : List ProductInput) (idMesa : Option ℕ) :
    SR (Pedido × List ProductoPedido) × DB :=
  if productos.isEmpty then (.err 400, db)
  else
    match validarProductos env productos with
    | .exn => (.exn, db)
    | .err s => (.err s, db)
    | .ok productosValidados =>
        let mesaCheck : SR (Option Mesa) :=
          match idMesa with
          | none => .ok none
          | some im =>
              if env.mesasFalla then .exn
              else
                match env.mesas.find? (fun m => m.idMesa == im) with
                | none => .err 400
                | some mesa =>
                    if mesa.estado ≠ "Disponible" then .err 400
                    else .ok (some mesa)
        match mesaCheck with
        | .exn => (.exn, db)
        | .err s => (.err s, db)
        | .ok _ =>
            let r1 := createPedido db idUsuarioEmpleado 0 "sin_confirmar" "fisico"
              env.ahora none idMesa
            let r2 := insertarLineas r1.2 r1.1.idPedido productosValidados [] 0
            let db3 := updatePedidoWith r2.2 r1.1.idPedido
              (fun p => { p with total := r2.1.2 })
            if env.pdfFalla then (.err 400, db)
            else if idMesa.isSome && env.mesaUpdateFalla then (.err 400, db)
            else
              match findPedido db3 r1.1.idPedido with
              | some pedidoActualizado => (.ok (pedidoActualizado, r2.1.1), db3)
              | none => (.exn, db)

/-- `OrderService.addProductToOrder`: order must exist and not be
cancelled; the product must be active with sufficient stock for the
cumulative quantity; the line is inserted or merged at the current
price and the order total is recomputed from all lines. -/
def addProductToOrder (env : Env) (db : DB) (idPedido idProducto : ℕ) (cantidad : ℤ) :
    SR (Pedido × ProductoPedido) × DB :=
  if cantidad ≤ 0 then (.err 400, db)
  else
    match findPedido db idPedido with
    | none => (.err 400, db)
    | some pedido =>
        if pedido.estado == "cancelado" then (.err 400, db)
        else if env.inventarioFalla idProducto then (.exn, db)
        else
          match env.inventario idProducto with
          | none => (.err 400, db)
          | some producto =>
              if producto.activo = false then (.err 400, db)
              else if producto.stockActual < cantidad then (.err 400, db)
              else
                let existente := db.productosPedido.find?
                  (fun l => l.idPedido == idPedido && l.idProducto == idProducto)
                let paso1 : SR ProductoPedido × DB :=
                  match existente with
                  | some l =>
                      let nuevaCantidad := l.cantidad + cantidad
                      if producto.stockActual < nuevaCantidad then (.err 400, db)
                      else
                        let nuevoSubtotal := (nuevaCantidad : ℚ) * producto.precio
                        let db1 := updateProductoPedidoWith db l.idProductoPedido
                          (fun x => { x with cantidad := nuevaCantidad
                                             subtotal := nuevoSubtotal
                                             precioUnitario := producto.precio })
                        (.ok { l with cantidad := nuevaCantidad
                                      subtotal := nuevoSubtotal
                                      precioUnitario := producto.precio }, db1)
                  | none =>
                      let r := createProductoPedido db idPedido idProducto cantidad
                        producto.precio ((cantidad : ℚ) * producto.precio)
                      (.ok r.1, r.2)
                match paso1.1 with
                | .err s => (.err s, paso1.2)
                | .exn => (.exn, paso1.2)
                | .ok productoPedido =>
                    let db2 := updatePedidoWith paso1.2 idPedido
                      (fun p => { p with total := linesTotal paso1.2 idPedido })
                    match findPedido db2 idPedido with
                    | some pedidoActualizado => (.ok (pedidoActualizado, productoPedido), db2)
                    | none => (.exn, db2)

/-- The `transicionesValidas` table of `OrderService.updateOrderStatus`
(an unknown current state maps to no allowed targets, as the source's
optional-chained lookup does). -/
def transicionesValidas (estado : String) : List String :=
  if estado == "sin_confirmar" then ["pendiente", "cancelado"]
  else if estado == "pendiente" then ["entregado", "cancelado"]
  else []

/-- `OrderService.updateOrderStatus` (the order state machine): the
target must be one of the four known states, the current state must not
be terminal, the transition must be in `transicionesValidas`, and a
transition into `pendiente` requires an existing payment row; every
failing check throws before anything is written (modelled as an error
result with the store unchanged). -/
def updateOrderStatus (db : DB) (idPedido : ℕ) (nuevoEstado : String) : SR Pedido × DB :=
  match findPedido db idPedido with
  | none => (.err 400, db)
  | some pedido =>
      let estadoActual := pedido.estado
      if (["sin_confirmar", "pendiente", "entregado", "cancelado"].contains nuevoEstado)
          = false then (.err 400, db)
      else if estadoActual == "entregado" then (.err 400, db)
      else if estadoActual == "cancelado" then (.err 400, db)
      else if ((transicionesValidas estadoActual).contains nuevoEstado) = false then
        (.err 400, db)
      else if nuevoEstado == "pendiente" && (pagosByPedido db idPedido).isEmpty then
        (.err 400, db)
      else
        let db1 := updatePedidoWith db idPedido (fun p => { p with estado := nuevoEstado })
        match findPedido db1 idPedido with
        | some pedidoActualizado => (.ok pedidoActualizado, db1)
        | none => (.exn, db1)

/-- `OrderService.cancelOrder`: customer-initiated, ownership-checked,
allowed only from `sin_confirmar` or `pendiente`. -/
def cancelOrder (db : DB) (idPedido idUsuario : ℕ) : SR Unit × DB :=
  match findPedido db idPedido with
  | none => (.err 404, db)
  | some pedido =>
      if pedido.idUsuario ≠ idUsuario then (.err 403, db)
      else if pedido.estado ≠ "sin_confirmar" && pedido.estado ≠ "pendiente" then
        (.err 400, db)
      else
        (.ok (), updatePedidoWith db idPedido (fun p => { p with estado := "cancelado" }))

/-- `OrderService.removeProductFromOrder` (staff): blocked when the order
is delivered or cancelled; deletes the line and decrements the total by
the removed subtotal. -/
def removeProductFromOrder (db : DB) (idProductoPedido : ℕ) : SR Unit × DB :=
  match findProductoPedido db idProductoPedido with
  | none => (.err 404, db)
  | some lineaPedido =>
      match findPedido db lineaPedido.idPedido with
      | none => (.err 500, db)
      | some pedido =>
          if pedido.estado == "entregado" || pedido.estado == "cancelado" then
            (.err 400, db)
          else
            let db1 := deleteProductoPedido db idProductoPedido
            let db2 := updatePedidoWith db1 pedido.idPedido
              (fun p => { p with total := pedido.total - lineaPedido.subtotal })
            (.ok (), db2)

/-- `OrderService.deleteOrder` (staff): blocked when delivered or when any
payment exists; otherwise destroys the order (cascading its lines). -/
def deleteOrder (db : DB) (idPedido : ℕ) : SR Unit × DB :=
  match findPedido db idPedido with
  | none => (.err 404, db)
  | some pedido =>
      if pedido.estado == "entregado" then (.err 400, db)
      else if (pagosByPedido db idPedido).isEmpty = false then (.err 400, db)
      else (.ok (), deletePedidoCascade db idPedido)

/- ------------------------------------------------------------------ -/
/- PaymentService                                                     -/
/- ------------------------------------------------------------------ -/

set_option linter.unusedVariables false in
/-- `InventoryService.reducirStock`: in the source this is an
unimplemented TODO stub — it logs a warning and returns without calling
the inventory service, so it never fails and never changes any stock.
The external inventory is threaded through unchanged. -/
def reducirStock (inventario : ℕ → Option Producto) (idProducto : ℕ) (cantidad : ℤ) :
    Except Unit (ℕ → Option Producto) :=
  .ok inventario

/-- The reservation loop of `registerPayment` step 6: `reducirStock` for
every line, aborting on the first failure. -/
def reservarInventario (inventario : ℕ → Option Producto) :
    List ProductoPedido → Except Unit (ℕ → Option Producto)
  | [] => .ok inventario
  | lineaPedido :: rest =>
      match reducirStock inventario lineaPedido.idProducto lineaPedido.cantidad with
      | .error e => .error e
      | .ok inv1 => reservarInventario inv1 rest

/-- Outcome of `registerPayment`: the service result, the local store
after the transaction, and the external inventory after the reservation
calls. -/
structure RegisterPaymentOutcome where
  resultado : SR (Pedido × Pago)
  db : DB
  inventarioFinal : ℕ → Option Producto

/-- `PaymentService.registerPayment` (CU39/CU40), executed under a
database transaction modelled from the spec as all-or-nothing over the
local store (every error path rolls the store back to its pre-call
state): load and check the order (exists, owned by the caller, still
`sin_confirmar`), check the payment method, require a non-empty line
list, reprice every line (step 4), re-validate stock for every line
against live inventory (step 5), reserve inventory (step 6 — a no-op in
the source, see `reducirStock`), insert the payment row, set the order
to `pendiente` with the recomputed total and resolved address, then
generate the receipt and backfill its path; a receipt failure aborts the
whole transaction. -/
def registerPayment (env : Env) (db : DB) (idPedido idUsuario idMetodoPago : ℕ)
    (direccionEntrega : Option String) : RegisterPaymentOutcome :=
  match findPedido db idPedido with
  | none => ⟨.err 404, db, env.inventario⟩
  | some pedido =>
      if pedido.idUsuario ≠ idUsuario then ⟨.err 403, db, env.inventario⟩
      else if pedido.estado ≠ "sin_confirmar" then ⟨.err 400, db, env.inventario⟩
      else
        match findMetodoPago db idMetodoPago with
        | none => ⟨.err 400, db, env.inventario⟩
        | some _ =>
            let productos := productosByPedido db idPedido
            if productos.isEmpty then ⟨.err 400, db, env.inventario⟩
            else
              let r := calcTotalPromosLoop env productos 0 db
              let totalConPromociones := round2 r.1
              let direccionFinal :=
                match direccionEntrega with
                | some d => d
                | none => pedido.direccionEntrega.getD ""
              match validateProductAvailability env productos with
              | .exn => ⟨.exn, db, env.inventario⟩
              | .err s => ⟨.err s, db, env.inventario⟩
              | .ok _ =>
                  match reservarInventario env.inventario productos with
                  | .error _ => ⟨.err 500, db, env.inventario⟩
                  | .ok inventarioFinal =>
                      let rp := createPago r.2 idPedido idMetodoPago totalConPromociones
                        env.ahora ""
                      let db3 := updatePedidoWith rp.2 idPedido
                        (fun p => { p with total := totalConPromociones
                                           estado := "pendiente"
                                           direccionEntrega := some direccionFinal })
                      match findPedido db3 idPedido with
                      | none => ⟨.exn, db, inventarioFinal⟩
                      | some pedidoActualizado =>
                          if env.pdfFalla then ⟨.err 500, db, inventarioFinal⟩
                          else
                            let db4 := updatePagoWith db3 rp.1.idPago
                              (fun g => { g with urlComprobante := "recibo.pdf" })
                            match findPago db4 rp.1.idPago with
                            | none => ⟨.exn, db, inventarioFinal⟩
                            | some pagoFinal =>
                                ⟨.ok (pedidoActualizado, pagoFinal), db4, inventarioFinal⟩

/- ------------------------------------------------------------------ -/
/- Store lemmas                                                       -/
/- ------------------------------------------------------------------ -/

theorem findProductoPedido_updatePedidoWith (db : DB) (i j : ℕ) (f : Pedido → Pedido) :
    findProductoPedido (updatePedidoWith db i f) j = findProductoPedido db j := rfl

theorem productosByPedido_updatePedidoWith (db : DB) (i j : ℕ) (f : Pedido → Pedido) :
    productosByPedido (updatePedidoWith db i f) j = productosByPedido db j := rfl

theorem pagosByPedido_updatePedidoWith (db : DB) (i j : ℕ) (f : Pedido → Pedido) :
    pagosByPedido (updatePedidoWith db i f) j = pagosByPedido db j := rfl

theorem pagosByPedido_updateProductoPedidoWith (db : DB) (i j : ℕ)
    (f : ProductoPedido → ProductoPedido) :
    pagosByPedido (updateProductoPedidoWith db i f) j = pagosByPedido db j := rfl

theorem findPedido_updateProductoPedidoWith (db : DB) (i j : ℕ)
    (f : ProductoPedido → ProductoPedido) :
    findPedido (updateProductoPedidoWith db i f) j = findPedido db j := rfl

theorem findPedido_updatePedidoWith (db : DB) (i j : ℕ) (f : Pedido → Pedido)
    (hf : ∀ p, (f p).idPedido = p.idPedido) :
    findPedido (updatePedidoWith db i f) j =
      (findPedido db j).map (fun p => if p.idPedido == i then f p else p) := by
  unfold findPedido updatePedidoWith
  rw [List.find?_map]
  have hpred : ((fun p : Pedido => p.idPedido == j) ∘
      (fun p => if p.idPedido == i then f p else p)) = (fun p => p.idPedido == j) := by
    funext p
    by_cases h : p.idPedido == i
    · simp [Function.comp, h, hf]
    · simp [Function.comp, h]
  rw [hpred]

theorem findProductoPedido_updateProductoPedidoWith (db : DB) (i j : ℕ)
    (f : ProductoPedido → ProductoPedido)
    (hf : ∀ l, (f l).idProductoPedido = l.idProductoPedido) :
    findProductoPedido (updateProductoPedidoWith db i f) j =
      (findProductoPedido db j).map
        (fun l => if l.idProductoPedido == i then f l else l) := by
  unfold findProductoPedido updateProductoPedidoWith
  rw [List.find?_map]
  have hpred : ((fun l : ProductoPedido => l.idProductoPedido == j) ∘
      (fun l => if l.idProductoPedido == i then f l else l)) =
      (fun l => l.idProductoPedido == j) := by
    funext l
    by_cases h : l.idProductoPedido == i
    · simp [Function.comp, h, hf]
    · simp [Function.comp, h]
  rw [hpred]

theorem productosByPedido_updateProductoPedidoWith (db : DB) (i j : ℕ)
    (f : ProductoPedido → ProductoPedido)
    (hf : ∀ l, (f l).idPedido = l.idPedido) :
    productosByPedido (updateProductoPedidoWith db i f) j =
      (productosByPedido db j).map
        (fun l => if l.idProductoPedido == i then f l else l) := by
  unfold productosByPedido updateProductoPedidoWith
  rw [List.filter_map]
  have hpred : ((fun l : ProductoPedido => l.idPedido == j) ∘
      (fun l => if l.idProductoPedido == i then f l else l)) =
      (fun l => l.idPedido == j) := by
    funext l
    by_cases h : l.idProductoPedido == i
    · simp [Function.comp, h, hf]
    · simp [Function.comp, h]
  rw [hpred]

/- ------------------------------------------------------------------ -/
/- C10: updateProductQuantity keeps the stored unit price             -/
/- ------------------------------------------------------------------ -/

/-- C10: a call to `updateProductQuantity` with a positive new quantity
that passes the ownership and `sin_confirmar` checks succeeds, and the
stored line afterwards has exactly the new quantity, a subtotal equal to
the new quantity times the previously stored unit price, and an
unchanged unit price — the operation consults no inventory (its
definition takes no environment), so neither price nor product activity
nor stock is refreshed. -/
theorem updateProductQuantity_uses_stored_price (db : DB) (idProductoPedido : ℕ)
    (nuevaCantidad : ℤ) (idUsuario : ℕ) (lineaPedido : ProductoPedido) (pedido : Pedido)
    (hl : findProductoPedido db idProductoPedido = some lineaPedido)
    (hp : findPedido db lineaPedido.idPedido = some pedido)
    (hu : pedido.idUsuario = idUsuario)
    (he : pedido.estado = "sin_confirmar")
    (hq : 0 < nuevaCantidad) :
    (updateProductQuantity db idProductoPedido nuevaCantidad idUsuario).1 =
      .ok (some { lineaPedido with
                    cantidad := nuevaCantidad
                    subtotal := (nuevaCantidad : ℚ) * lineaPedido.precioUnitario }) := by
  have hid : lineaPedido.idProductoPedido = idProductoPedido := by
    simpa using List.find?_some hl
  have hstep : findProductoPedido
      (updateProductoPedidoWith db idProductoPedido
        (fun x => { x with cantidad := nuevaCantidad
                           subtotal := (nuevaCantidad : ℚ) * lineaPedido.precioUnitario }))
      idProductoPedido =
      some { lineaPedido with
               cantidad := nuevaCantidad
               subtotal := (nuevaCantidad : ℚ) * lineaPedido.precioUnitario } := by
    rw [findProductoPedido_updateProductoPedidoWith db idProductoPedido idProductoPedido
      (fun x => { x with cantidad := nuevaCantidad
                         subtotal := (nuevaCantidad : ℚ) * lineaPedido.precioUnitario })
      (fun l => rfl), hl]
    simp [hid]
  unfold updateProductQuantity
  rw [hl]
  dsimp only
  rw [hp]
  dsimp only
  rw [if_neg (by simp [hu]), if_neg (by simp [he]), if_neg (by omega)]
  dsimp only
  rw [findProductoPedido_updatePedidoWith, hstep]

/-- Witness for C10 at a concrete store. -/
theorem updateProductQuantity_uses_stored_price_witness :
    (updateProductQuantity
        ⟨[⟨1, 7, 10, "sin_confirmar", "web", 0, none, none⟩],
         [⟨4, 1, 9, 2, 5, 10⟩], [], [], 2, 5, 1⟩ 4 3 7).1 =
      .ok (some { (⟨4, 1, 9, 2, 5, 10⟩ : ProductoPedido) with
                    cantidad := (3 : ℤ)
                    subtotal := ((3 : ℤ) : ℚ) * (5 : ℚ) }) :=
  updateProductQuantity_uses_stored_price _ 4 3 7 _ _ (by rfl) (by rfl) (by rfl) (by rfl)
    (by decide)

/- ------------------------------------------------------------------ -/
/- C3: the order status state machine                                 -/
/- ------------------------------------------------------------------ -/

theorem findPedido_id {db : DB} {i : ℕ} {p : Pedido}
    (h : findPedido db i = some p) : p.idPedido = i := by
  simpa using List.find?_some h

theorem findProductoPedido_id {db : DB} {i : ℕ} {l : ProductoPedido}
    (h : findProductoPedido db i = some l) : l.idProductoPedido = i := by
  simpa using List.find?_some h

/-- C3: `updateOrderStatus` implements exactly the transition table
`sin_confirmar → {pendiente, cancelado}`, `pendiente → {entregado,
cancelado}`, nothing out of `entregado`/`cancelado` or out of unknown
states; every requested transition outside the table (unknown names
included) yields a client error with the store unchanged; a successful
call performs a transition of the table; and `cancelOrder` sets
`cancelado` only from `sin_confirmar` or `pendiente`. -/
theorem updateOrderStatus_state_machine (db : DB) (idPedido : ℕ) (nuevoEstado : String)
    (idUsuario : ℕ) (pedido : Pedido)
    (hp : findPedido db idPedido = some pedido) :
    (transicionesValidas "sin_confirmar" = ["pendiente", "cancelado"] ∧
     transicionesValidas "pendiente" = ["entregado", "cancelado"] ∧
     ∀ s : String, s ≠ "sin_confirmar" → s ≠ "pendiente" → transicionesValidas s = [])
    ∧ ((transicionesValidas pedido.estado).contains nuevoEstado = false →
        (updateOrderStatus db idPedido nuevoEstado).1 = .err 400 ∧
        (updateOrderStatus db idPedido nuevoEstado).2 = db)
    ∧ (∀ p', (updateOrderStatus db idPedido nuevoEstado).1 = .ok p' →
        (transicionesValidas pedido.estado).contains nuevoEstado = true ∧
        p'.estado = nuevoEstado ∧
        findPedido (updateOrderStatus db idPedido nuevoEstado).2 idPedido =
          some { pedido with estado := nuevoEstado })
    ∧ ((cancelOrder db idPedido idUsuario).1 = .ok () →
        (pedido.estado = "sin_confirmar" ∨ pedido.estado = "pendiente") ∧
        findPedido (cancelOrder db idPedido idUsuario).2 idPedido =
          some { pedido with estado := "cancelado" }) := by
  have hid : pedido.idPedido = idPedido := findPedido_id hp
  have hfind : ∀ e : String, findPedido
      (updatePedidoWith db idPedido (fun p => { p with estado := e })) idPedido =
      some { pedido with estado := e } := by
    intro e
    rw [findPedido_updatePedidoWith db idPedido idPedido
      (fun p => { p with estado := e }) (fun p => rfl), hp]
    simp [hid]
  refine ⟨⟨rfl, rfl, ?_⟩, ?_, ?_, ?_⟩
  · intro s h1 h2
    unfold transicionesValidas
    rw [if_neg (by simpa using h1), if_neg (by simpa using h2)]
  · intro hno
    unfold updateOrderStatus
    rw [hp]
    dsimp only
    by_cases h1 : (["sin_confirmar", "pendiente", "entregado", "cancelado"].contains
        nuevoEstado) = false
    · rw [if_pos h1]; exact ⟨rfl, rfl⟩
    · rw [if_neg h1]
      by_cases h2 : (pedido.estado == "entregado") = true
      · rw [if_pos h2]; exact ⟨rfl, rfl⟩
      · rw [if_neg h2]
        by_cases h3 : (pedido.estado == "cancelado") = true
        · rw [if_pos h3]; exact ⟨rfl, rfl⟩
        · rw [if_neg h3, if_pos hno]; exact ⟨rfl, rfl⟩
  · intro p' hok
    unfold updateOrderStatus at hok ⊢
    rw [hp] at hok ⊢
    dsimp only at hok ⊢
    by_cases h1 : (["sin_confirmar", "pendiente", "entregado", "cancelado"].contains
        nuevoEstado) = false
    · rw [if_pos h1] at hok; exact absurd hok (by simp)
    · rw [if_neg h1] at hok ⊢
      by_cases h2 : (pedido.estado == "entregado") = true
      · rw [if_pos h2] at hok; exact absurd hok (by simp)
      · rw [if_neg h2] at hok ⊢
        by_cases h3 : (pedido.estado == "cancelado") = true
        · rw [if_pos h3] at hok; exact absurd hok (by simp)
        · rw [if_neg h3] at hok ⊢
          by_cases h4 : ((transicionesValidas pedido.estado).contains nuevoEstado) = false
          · rw [if_pos h4] at hok; exact absurd hok (by simp)
          · rw [if_neg h4] at hok ⊢
            by_cases h5 : (nuevoEstado == "pendiente" &&
                (pagosByPedido db idPedido).isEmpty) = true
            · rw [if_pos h5] at hok; exact absurd hok (by simp)
            · rw [if_neg h5] at hok ⊢
              rw [hfind nuevoEstado] at hok ⊢
              dsimp only at hok ⊢
              have hinj : ({ pedido with estado := nuevoEstado } : Pedido) = p' := by
                injection hok
              refine ⟨by simpa using h4, ?_, hfind nuevoEstado⟩
              rw [← hinj]
  · intro hok
    unfold cancelOrder at hok ⊢
    rw [hp] at hok ⊢
    dsimp only at hok ⊢
    by_cases h1 : pedido.idUsuario ≠ idUsuario
    · rw [if_pos h1] at hok; exact absurd hok (by simp)
    · rw [if_neg h1] at hok ⊢
      by_cases h2 : (pedido.estado ≠ "sin_confirmar" && pedido.estado ≠ "pendiente") = true
      · rw [if_pos h2] at hok; exact absurd hok (by simp)
      · rw [if_neg h2] at hok ⊢
        dsimp only
        refine ⟨?_, hfind "cancelado"⟩
        by_cases hsc : pedido.estado = "sin_confirmar"
        · exact Or.inl hsc
        · refine Or.inr ?_
          by_contra hpe
          exact h2 (by simp [hsc, hpe])

/-- Witness for C3: a delivered order rejects the transition to
`cancelado` and is left unchanged. -/
theorem updateOrderStatus_state_machine_witness :
    (updateOrderStatus
        ⟨[⟨1, 7, 10, "entregado", "web", 0, none, none⟩], [], [], [], 2, 1, 1⟩
        1 "cancelado").1 = .err 400 ∧
    (updateOrderStatus
        ⟨[⟨1, 7, 10, "entregado", "web", 0, none, none⟩], [], [], [], 2, 1, 1⟩
        1 "cancelado").2 =
      ⟨[⟨1, 7, 10, "entregado", "web", 0, none, none⟩], [], [], [], 2, 1, 1⟩ :=
  ((updateOrderStatus_state_machine _ 1 "cancelado" 7 _ (by rfl)).2.1) (by rfl)

/- ------------------------------------------------------------------ -/
/- C8: addProductToCart and out-of-stock products                     -/
/- ------------------------------------------------------------------ -/

/-- Two inventory answers that agree except possibly on the stock level. -/
def mismoSalvoStock : Option Producto → Option Producto → Prop
  | none, none => True
  | some x, some y => x.precio = y.precio ∧ x.activo = y.activo
  | _, _ => False

/-- A store and environment exhibiting the C8 scenario: product 5 is
active with `stockActual = 0`. -/
def envStockCero : Env :=
  ⟨fun p => if p == 5 then some ⟨4, true, 0⟩ else none, fun _ => false,
   fun _ => none, fun _ => false, fun _ => none, [], false, false, false, 0⟩

def dbVacia : DB := ⟨[], [], [], [], 1, 1, 1⟩

/-- Counterexample to C8 as stated: adding one unit of an active product
whose inventory record has `stockActual = 0` is *not* rejected — the
call succeeds and a cart line is created. -/
theorem addProductToCart_stock_zero_not_rejected :
    envStockCero.inventario 5 = some ⟨4, true, 0⟩ ∧
    (addProductToCart envStockCero dbVacia 7 5 1).1.isOk = true ∧
    productosByPedido (addProductToCart envStockCero dbVacia 7 5 1).2 1 ≠ [] := by
  refine ⟨rfl, ?_, ?_⟩ <;>
    simp [addProductToCart, envStockCero, dbVacia, findCarrito, createPedido,
      addOrUpdateProduct, createProductoPedido, updatePedidoWith, findPedido,
      productosByPedido, linesTotal, SR.isOk]

/-- C8 (amended): `addProductToCart` rejects with a 404-style
not-available error whenever the product is missing from inventory or
inactive, leaving the store untouched; and its outcome never depends on
the product's stock level — the stock field is simply not consulted
(stock is enforced later, at confirmation and payment time). -/
theorem addProductToCart_ignores_stock :
    (∀ (env : Env) (db : DB) (idUsuario idProducto : ℕ) (cantidad : ℤ),
      0 < cantidad →
      env.inventarioFalla idProducto = false →
      (env.inventario idProducto = none ∨
        (∃ prod, env.inventario idProducto = some prod ∧ prod.activo = false)) →
      addProductToCart env db idUsuario idProducto cantidad = (.err 404, db))
    ∧ (∀ (env env' : Env) (db : DB) (idUsuario idProducto : ℕ) (cantidad : ℤ),
        env.inventarioFalla idProducto = env'.inventarioFalla idProducto →
        env.ahora = env'.ahora →
        mismoSalvoStock (env.inventario idProducto) (env'.inventario idProducto) →
        addProductToCart env db idUsuario idProducto cantidad =
          addProductToCart env' db idUsuario idProducto cantidad) := by
  constructor
  · intro env db idUsuario idProducto cantidad hq hfalla hcase
    unfold addProductToCart
    rw [if_neg (by omega), if_neg (by simp [hfalla])]
    rcases hcase with hnone | ⟨prod, hsome, hinact⟩
    · rw [hnone]
    · rw [hsome]
      dsimp only
      rw [if_pos hinact]
  · intro env env' db idUsuario idProducto cantidad hfalla hahora hinv
    unfold addProductToCart
    rw [hfalla, hahora]
    cases henv : env.inventario idProducto with
    | none =>
        cases henv' : env'.inventario idProducto with
        | none => rfl
        | some y => rw [henv, henv'] at hinv; exact absurd hinv (by simp [mismoSalvoStock])
    | some x =>
        cases henv' : env'.inventario idProducto with
        | none => rw [henv, henv'] at hinv; exact absurd hinv (by simp [mismoSalvoStock])
        | some y =>
            rw [henv, henv'] at hinv
            obtain ⟨hprecio, hactivo⟩ := hinv
            dsimp only
            rw [hprecio, hactivo]

/-- Witness for the amended C8: an inactive product is rejected with 404
and nothing changes. -/
theorem addProductToCart_ignores_stock_witness :
    addProductToCart
        ⟨fun p => if p == 6 then some ⟨4, false, 9⟩ else none, fun _ => false,
         fun _ => none, fun _ => false, fun _ => none, [], false, false, false, 0⟩
        dbVacia 7 6 1 = (.err 404, dbVacia) :=
  addProductToCart_ignores_stock.1 _ dbVacia 7 6 1 (by decide) (by rfl)
    (Or.inr ⟨⟨4, false, 9⟩, by rfl, by rfl⟩)

/- ------------------------------------------------------------------ -/
/- C2: fail-open pricing                                              -/
/- ------------------------------------------------------------------ -/

/-- Environment for the C2 counterexample: product 1 carries base price
10 in inventory, but the inventory fetch itself fails. -/
def envInventarioCaido : Env :=
  ⟨fun p => if p == 1 then some ⟨10, true, 5⟩ else none, fun p => p == 1,
   fun _ => none, fun _ => false, fun _ => none, [], false, false, false, 0⟩

/-- Counterexample to C2 as stated: when the inventory product fetch
fails, the result does *not* carry the product's original base price
(10) — both price fields come back as the initial value 0. -/
theorem calcularPrecio_inventario_caido_cero :
    envInventarioCaido.inventarioFalla 1 = true ∧
    envInventarioCaido.inventario 1 = some ⟨10, true, 5⟩ ∧
    (calcularPrecioConPromocion envInventarioCaido 1 1).precioOriginal = 0 ∧
    (calcularPrecioConPromocion envInventarioCaido 1 1).precioFinal = 0 ∧
    (10 : ℚ) ≠ 0 := by
  refine ⟨rfl, rfl, ?_, ?_, by norm_num⟩ <;>
    simp [calcularPrecioConPromocion, envInventarioCaido, buildResultSinPromocion]

/-- C2 (amended): pricing is fail-open, but the fallback price depends on
where the failure happens.  If the inventory fetch fails or the product
is missing, the result carries 0 as both original and final price with
zero discount and no promotion; if the product is fetched and then the
promotion fetch fails, or no promotion survives the filters, the result
carries the product's base price as both original and final price with
zero discount and no promotion.  Pricing failures never produce a
nonzero discount. -/
theorem calcularPrecio_fail_open (env : Env) (idProducto : ℕ) (cantidad : ℤ) :
    ((env.inventarioFalla idProducto = true ∨ env.inventario idProducto = none) →
      calcularPrecioConPromocion env idProducto cantidad = buildResultSinPromocion 0)
    ∧ (∀ prod, env.inventarioFalla idProducto = false →
        env.inventario idProducto = some prod →
        (env.promocionesFalla idProducto = true ∨
         env.promociones idProducto = none ∨
         env.promociones idProducto = some [] ∨
         (∃ promos, env.promociones idProducto = some promos ∧
            seleccionarMejorPromocion promos prod.precio cantidad env.ahora = none)) →
        calcularPrecioConPromocion env idProducto cantidad =
          buildResultSinPromocion prod.precio)
    ∧ (∀ p : ℚ, (buildResultSinPromocion p).precioOriginal = p ∧
        (buildResultSinPromocion p).precioFinal = p ∧
        (buildResultSinPromocion p).descuentoAplicado = 0 ∧
        (buildResultSinPromocion p).porcentajeDescuento = 0 ∧
        (buildResultSinPromocion p).promocionAplicada = none) := by
  refine ⟨?_, ?_, fun p => ⟨rfl, rfl, rfl, rfl, rfl⟩⟩
  · intro hcase
    unfold calcularPrecioConPromocion
    rcases hcase with hfalla | hnone
    · rw [if_pos hfalla]
    · by_cases hfalla : env.inventarioFalla idProducto = true
      · rw [if_pos hfalla]
      · rw [if_neg hfalla, hnone]
  · intro prod hfalla hsome hcase
    unfold calcularPrecioConPromocion
    rw [if_neg (by simp [hfalla]), hsome]
    dsimp only
    by_cases hpf : env.promocionesFalla idProducto = true
    · rw [if_pos hpf]
    · rw [if_neg hpf]
      rcases hcase with hpf2 | hpn | hpe | ⟨promos, hps, hsel⟩
      · exact absurd hpf2 hpf
      · rw [hpn]
      · rw [hpe]
        dsimp only
        rw [if_pos (by rfl)]
      · rw [hps]
        dsimp only
        by_cases hempty : promos.isEmpty = true
        · rw [if_pos hempty]
        · rw [if_neg hempty, hsel]

/-- Witness for the amended C2: with the product fetched (price 10) and a
failing promotion lookup, the base price comes back untouched. -/
theorem calcularPrecio_fail_open_witness :
    calcularPrecioConPromocion
        ⟨fun p => if p == 1 then some ⟨10, true, 5⟩ else none, fun _ => false,
         fun _ => none, fun p => p == 1, fun _ => none, [], false, false, false, 0⟩
        1 2 = buildResultSinPromocion (10 : ℚ) :=
  ((calcularPrecio_fail_open _ 1 2).2.1) ⟨10, true, 5⟩ (by rfl) (by rfl) (Or.inl (by rfl))

/- ------------------------------------------------------------------ -/
/- C9: promotions never raise the price                               -/
/- ------------------------------------------------------------------ -/

theorem round2_zero : round2 0 = 0 := by
  rw [round2_eq]
  simp

theorem round2_pos_arg {x : ℚ} (h : 0 < round2 x) : 0 < x := by
  rw [round2_eq] at h
  have h1 : (0 : ℤ) < round (100 * x) := by
    by_contra hc
    push_neg at hc
    have : ((round (100 * x) : ℤ) : ℚ) ≤ 0 := by exact_mod_cast hc
    have : ((round (100 * x) : ℤ) : ℚ) / 100 ≤ 0 := by
      apply div_nonpos_of_nonpos_of_nonneg this (by norm_num)
    linarith
  rw [round_eq] at h1
  have h2 : (1 : ℚ) ≤ 100 * x + 1 / 2 := by
    have := Int.le_floor.mp h1
    exact_mod_cast this
  linarith

/-- A selected promotion (one with a strictly positive computed
discount) never prices the product above a nonnegative 2-decimal
original price. -/
theorem calcularDescuento_le (pp : ProductoPromocionConDetalle) (precio : ℚ)
    (hc : IsCents precio) (h0 : 0 ≤ precio)
    (hpos : 0 < (calcularDescuento pp precio).descuentoCalculado) :
    (calcularDescuento pp precio).precioFinal ≤ precio := by
  unfold calcularDescuento at hpos ⊢
  revert hpos
  cases hfijo : pp.precioPromocional with
  | some fijo =>
      dsimp only
      intro hpos
      by_cases hz : precio = 0
      · rw [hz] at hpos
        simp [div_zero, round2_zero] at hpos
      · have hprecio : 0 < precio := lt_of_le_of_ne h0 (Ne.symm hz)
        have harg : 0 < ((precio - fijo) / precio) * 100 := round2_pos_arg hpos
        have hdiv : 0 < (precio - fijo) / precio := by linarith
        have hsub : 0 < precio - fijo := by
          by_contra hc2
          push_neg at hc2
          have : (precio - fijo) / precio ≤ 0 :=
            div_nonpos_of_nonpos_of_nonneg hc2 (le_of_lt hprecio)
          linarith
        calc round2 fijo ≤ round2 precio := round2_mono (by linarith)
          _ = precio := hc.round2_fix
  | none =>
      cases hpct : pp.porcentajeDescuento with
      | some pct =>
          dsimp only
          intro hpos
          have hp : 0 < pct := round2_pos_arg hpos
          have hle : precio * (1 - pct / 100) ≤ precio := by
            nlinarith
          calc round2 (precio * (1 - pct / 100)) ≤ round2 precio := round2_mono hle
            _ = precio := hc.round2_fix
      | none =>
          dsimp only
          intro hpos
          simp [round2_zero] at hpos

/-- Invariant of the best-promotion selection loop: the accumulated
discount stays nonnegative and the accumulated price never exceeds a
nonnegative 2-decimal original price. -/
theorem seleccionarLoop_le (ahora : ℤ) (precio : ℚ) (cantidad : ℤ)
    (hc : IsCents precio) (h0 : 0 ≤ precio) :
    ∀ (promos : List ProductoPromocionConDetalle) (acc : MejorSel),
      0 ≤ acc.mayorDescuento → acc.precioConDescuento ≤ precio →
      0 ≤ (seleccionarLoop ahora precio cantidad promos acc).mayorDescuento ∧
      (seleccionarLoop ahora precio cantidad promos acc).precioConDescuento ≤ precio := by
  intro promos
  induction promos with
  | nil => intro acc h1 h2; exact ⟨h1, h2⟩
  | cons pp rest ih =>
      intro acc h1 h2
      unfold seleccionarLoop
      dsimp only
      by_cases hv : esPromocionValida pp.detallePromocion ahora = false
      · rw [if_pos hv]; exact ih acc h1 h2
      · rw [if_neg hv]
        by_cases hq : cantidad < pp.cantidadMinima
        · rw [if_pos hq]; exact ih acc h1 h2
        · rw [if_neg hq]
          by_cases hd : acc.mayorDescuento < (calcularDescuento pp precio).descuentoCalculado
          · rw [if_pos hd]
            have hpos : 0 < (calcularDescuento pp precio).descuentoCalculado :=
              lt_of_le_of_lt h1 hd
            exact ih _ (le_of_lt hpos) (calcularDescuento_le pp precio hc h0 hpos)
          · rw [if_neg hd]; exact ih acc h1 h2

/-- C9 (amended): whenever every inventory price is a nonnegative
2-decimal amount (as the `DECIMAL(10,2)` money columns guarantee for
stored prices), `calcularPrecioConPromocion` never returns a final price
above the original price, and both the discount amount and the discount
percent are nonnegative. -/
theorem calcularPrecio_no_sobreprecio (env : Env) (idProducto : ℕ) (cantidad : ℤ)
    (hinv : ∀ prod, env.inventario idProducto = some prod →
      IsCents prod.precio ∧ 0 ≤ prod.precio) :
    (calcularPrecioConPromocion env idProducto cantidad).precioFinal ≤
      (calcularPrecioConPromocion env idProducto cantidad).precioOriginal ∧
    0 ≤ (calcularPrecioConPromocion env idProducto cantidad).descuentoAplicado ∧
    0 ≤ (calcularPrecioConPromocion env idProducto cantidad).porcentajeDescuento := by
  unfold calcularPrecioConPromocion
  by_cases hfalla : env.inventarioFalla idProducto = true
  · rw [if_pos hfalla]
    exact ⟨le_refl _, le_refl _, le_refl _⟩
  · rw [if_neg hfalla]
    cases hprod : env.inventario idProducto with
    | none => exact ⟨le_refl _, le_refl _, le_refl _⟩
    | some prod =>
        obtain ⟨hc, h0⟩ := hinv prod hprod
        dsimp only
        by_cases hpf : env.promocionesFalla idProducto = true
        · rw [if_pos hpf]
          exact ⟨le_refl _, le_refl _, le_refl _⟩
        · rw [if_neg hpf]
          cases hpl : env.promociones idProducto with
          | none => exact ⟨le_refl _, le_refl _, le_refl _⟩
          | some promos =>
              dsimp only
              by_cases hempty : promos.isEmpty = true
              · rw [if_pos hempty]
                exact ⟨le_refl _, le_refl _, le_refl _⟩
              · rw [if_neg hempty]
                cases hsel : seleccionarMejorPromocion promos prod.precio cantidad
                    env.ahora with
                | none => exact ⟨le_refl _, le_refl _, le_refl _⟩
                | some sel =>
                    obtain ⟨pp, fin, desc⟩ := sel
                    unfold seleccionarMejorPromocion at hsel
                    dsimp only at hsel
                    cases hm : (seleccionarLoop env.ahora prod.precio cantidad promos
                        ⟨none, 0, prod.precio⟩).mejorPromocion with
                    | none => rw [hm] at hsel; exact absurd hsel (by simp)
                    | some pp' =>
                        rw [hm] at hsel
                        dsimp only at hsel
                        have hloop := seleccionarLoop_le env.ahora prod.precio cantidad
                          hc h0 promos ⟨none, 0, prod.precio⟩ (le_refl 0) (le_refl _)
                        have hfin : fin =
                            (seleccionarLoop env.ahora prod.precio cantidad promos
                              ⟨none, 0, prod.precio⟩).precioConDescuento := by
                          injection hsel with h
                          have h2 := congrArg
                            (fun t : ProductoPromocionConDetalle × ℚ × ℚ => t.2.1) h
                          simpa using h2.symm
                        have hdesc : desc =
                            (seleccionarLoop env.ahora prod.precio cantidad promos
                              ⟨none, 0, prod.precio⟩).mayorDescuento := by
                          injection hsel with h
                          have h3 := congrArg
                            (fun t : ProductoPromocionConDetalle × ℚ × ℚ => t.2.2) h
                          simpa using h3.symm
                        unfold buildResultConPromocion
                        dsimp only
                        refine ⟨?_, ?_, ?_⟩
                        · calc round2 fin ≤ round2 prod.precio :=
                            round2_mono (hfin ▸ hloop.2)
                            _ = prod.precio := hc.round2_fix
                        · exact round2_nonneg (by linarith [hfin ▸ hloop.2])
                        · exact round2_nonneg (hdesc ▸ hloop.1)

/-- Witness for the amended C9: a 20%-off promotion on a product priced
10.00 yields a discounted, never-increased price. -/
theorem calcularPrecio_no_sobreprecio_witness :
    (calcularPrecioConPromocion
        ⟨fun p => if p == 1 then some ⟨10, true, 5⟩ else none, fun _ => false,
         fun p => if p == 1 then some [⟨some ⟨true, 0, 10⟩, 0, none, some 20⟩] else none,
         fun _ => false, fun _ => none, [], false, false, false, 5⟩ 1 1).precioFinal ≤
      (calcularPrecioConPromocion
        ⟨fun p => if p == 1 then some ⟨10, true, 5⟩ else none, fun _ => false,
         fun p => if p == 1 then some [⟨some ⟨true, 0, 10⟩, 0, none, some 20⟩] else none,
         fun _ => false, fun _ => none, [], false, false, false, 5⟩ 1 1).precioOriginal :=
  (calcularPrecio_no_sobreprecio _ 1 1
    (fun prod h => by
      simp only [Option.some.injEq] at h
      rw [show prod = ⟨10, true, 5⟩ from by simpa using h.symm]
      exact ⟨⟨1000, by norm_num⟩, by norm_num⟩)).1

/-- The promotion used in the C9 counterexample: active, in window, no
minimum quantity, fixed promotional price 4.996. -/
def promoSobreprecio : ProductoPromocionConDetalle :=
  ⟨some ⟨true, 0, 10⟩, 0, some (4996 / 1000), none⟩

/-- Environment for the C9 counterexample: product 1 has the sub-cent
base price 4.997. -/
def envSobreprecio : Env :=
  ⟨fun p => if p == 1 then some ⟨4997 / 1000, true, 5⟩ else none, fun _ => false,
   fun p => if p == 1 then some [promoSobreprecio] else none, fun _ => false,
   fun _ => none, [], false, false, false, 5⟩

/-- Counterexample to C9 as stated over all inputs: with base price
4.997 and fixed promotional price 4.996, the promotion is selected
(positive computed discount) and `toFixed(2)` rounds the final price to
5.00 — strictly above the original price. -/
theorem calcularPrecio_sobreprecio :
    (calcularPrecioConPromocion envSobreprecio 1 1).precioOriginal <
      (calcularPrecioConPromocion envSobreprecio 1 1).precioFinal := by
  have h1 : round2 ((4996 : ℚ) / 1000) = 5 := by
    rw [round2_eq_of ((4996 : ℚ) / 1000) 500 (by norm_num) (by norm_num)]
    norm_num
  have h2 : round2 (((4997 : ℚ) / 1000 - 4996 / 1000) / (4997 / 1000) * 100) = 2 / 100 := by
    rw [round2_eq_of (((4997 : ℚ) / 1000 - 4996 / 1000) / (4997 / 1000) * 100) 2
      (by norm_num) (by norm_num)]
    norm_num
  have hloop : seleccionarLoop 5 ((4997 : ℚ) / 1000) 1 [promoSobreprecio]
      ⟨none, 0, (4997 : ℚ) / 1000⟩ = ⟨some promoSobreprecio, 2 / 100, 5⟩ := by
    unfold seleccionarLoop promoSobreprecio
    dsimp only
    rw [if_neg (by decide), if_neg (by decide)]
    unfold calcularDescuento
    dsimp only [promoSobreprecio]
    rw [h1, h2]
    rw [if_pos (by norm_num)]
    unfold seleccionarLoop
    rfl
  have e1 : calcularPrecioConPromocion envSobreprecio 1 1 =
      buildResultConPromocion ((4997 : ℚ) / 1000) 5 (2 / 100) promoSobreprecio := by
    unfold calcularPrecioConPromocion envSobreprecio
    norm_num
    unfold seleccionarMejorPromocion
    dsimp only
    rw [hloop]
    dsimp only
    congr 1
    norm_num
  rw [e1]
  unfold buildResultConPromocion
  dsimp only
  rw [IsCents.round2_fix ⟨500, by norm_num⟩]
  norm_num

/- ------------------------------------------------------------------ -/
/- C7: inventory reservation is an unimplemented stub                 -/
/- ------------------------------------------------------------------ -/

theorem reservarInventario_id (inv : ℕ → Option Producto) :
    ∀ ls : List ProductoPedido, reservarInventario inv ls = .ok inv
  | [] => rfl
  | _ :: rest => by
      unfold reservarInventario reducirStock
      exact reservarInventario_id inv rest

/-- C7 evidence: `registerPayment` never changes any external stock —
`reducirStock` is an unimplemented TODO stub that returns without
calling the inventory service and can never fail — contradicting the
claim that each line's product stock is decremented by the line's
quantity before the payment row is inserted. -/
theorem registerPayment_inventario_sin_cambio (env : Env) (db : DB)
    (idPedido idUsuario idMetodoPago : ℕ) (direccionEntrega : Option String) :
    (registerPayment env db idPedido idUsuario idMetodoPago
        direccionEntrega).inventarioFinal = env.inventario ∧
    ∀ (inv : ℕ → Option Producto) (p : ℕ) (q : ℤ), reducirStock inv p q = .ok inv := by
  refine ⟨?_, fun inv p q => rfl⟩
  unfold registerPayment
  simp only [reservarInventario_id]
  repeat' split
  all_goals rfl

/- ------------------------------------------------------------------ -/
/- C1: registerPayment is all-or-nothing                              -/
/- ------------------------------------------------------------------ -/

/-- Every outcome of `registerPayment` either leaves the local store
exactly as it was or is a success. -/
theorem registerPayment_db_cases (env : Env) (db : DB)
    (idPedido idUsuario idMetodoPago : ℕ) (direccionEntrega : Option String) :
    (registerPayment env db idPedido idUsuario idMetodoPago direccionEntrega).db = db ∨
    (registerPayment env db idPedido idUsuario idMetodoPago
      direccionEntrega).resultado.isOk = true := by
  unfold registerPayment
  simp only [reservarInventario_id]
  repeat' split
  all_goals simp [SR.isOk]

/-- C1: whenever `registerPayment` returns an error (order missing, not
owned, not `sin_confirmar`, bad payment method, empty line list, failed
stock re-validation, failed reservation, or failed receipt generation),
the transaction leaves no payment row for the order and the order's
status — indeed the entire local store — is exactly as before the call. -/
theorem registerPayment_all_or_nothing (env : Env) (db : DB)
    (idPedido idUsuario idMetodoPago : ℕ) (direccionEntrega : Option String)
    (hfail : (registerPayment env db idPedido idUsuario idMetodoPago
      direccionEntrega).resultado.isOk = false) :
    pagosByPedido (registerPayment env db idPedido idUsuario idMetodoPago
        direccionEntrega).db idPedido = pagosByPedido db idPedido ∧
    Option.map Pedido.estado (findPedido (registerPayment env db idPedido idUsuario
        idMetodoPago direccionEntrega).db idPedido) =
      Option.map Pedido.estado (findPedido db idPedido) ∧
    (registerPayment env db idPedido idUsuario idMetodoPago direccionEntrega).db = db := by
  rcases registerPayment_db_cases env db idPedido idUsuario idMetodoPago direccionEntrega
    with hdb | hok
  · rw [hdb]
    exact ⟨rfl, rfl, rfl⟩
  · rw [hok] at hfail
    exact absurd hfail (by simp)

/-- A fully trivial environment (every external call answers empty). -/
def envTrivial : Env :=
  ⟨fun _ => none, fun _ => false, fun _ => none, fun _ => false, fun _ => none,
   [], false, false, false, 0⟩

/-- Witness for C1: paying a nonexistent order fails and leaves the
(empty) store untouched. -/
theorem registerPayment_all_or_nothing_witness :
    pagosByPedido (registerPayment envTrivial dbVacia 1 7 1 none).db 1 =
      pagosByPedido dbVacia 1 ∧
    Option.map Pedido.estado (findPedido (registerPayment envTrivial dbVacia 1 7 1 none).db 1) =
      Option.map Pedido.estado (findPedido dbVacia 1) ∧
    (registerPayment envTrivial dbVacia 1 7 1 none).db = dbVacia :=
  registerPayment_all_or_nothing envTrivial dbVacia 1 7 1 none (by rfl)

/- ------------------------------------------------------------------ -/
/- C4: entering pendiente and payment existence                       -/
/- ------------------------------------------------------------------ -/

/-- Environment for the C4 counterexample: user 7 is a registered
client; product 9 is active with ample stock; no promotions. -/
def envConfirma : Env :=
  ⟨fun p => if p == 9 then some ⟨10, true, 5⟩ else none, fun _ => false,
   fun _ => none, fun _ => false,
   fun u => if u == 7 then some ⟨"ana@mail", "Ana", some "Calle 1"⟩ else none,
   [], false, false, false, 0⟩

/-- Store for the C4 counterexample: user 7 has an unconfirmed cart with
one line and there are no payment rows at all. -/
def dbConCarrito : DB :=
  ⟨[⟨1, 7, 10, "sin_confirmar", "web", 0, none, none⟩], [⟨4, 1, 9, 1, 10, 10⟩],
   [], [], 2, 5, 1⟩

/-- Counterexample to C4 as stated: `confirmOrder` succeeds, the order's
status becomes `pendiente`, and no payment row exists for it at any
point — entering `pendiente` through `confirmOrder` is not gated on
payment existence. -/
theorem confirmOrder_pendiente_sin_pago :
    (confirmOrder envConfirma dbConCarrito 7 none).1.isOk = true ∧
    Option.map Pedido.estado
        (findPedido (confirmOrder envConfirma dbConCarrito 7 none).2 1) =
      some "pendiente" ∧
    pagosByPedido (confirmOrder envConfirma dbConCarrito 7 none).2 1 = [] ∧
    pagosByPedido dbConCarrito 1 = [] := by
  refine ⟨?_, ?_, ?_, rfl⟩ <;>
    simp [confirmOrder, envConfirma, dbConCarrito, findCarrito, productosByPedido,
      validateProductAvailability, calcTotalPromosLoop, calcularPrecioConPromocion,
      buildResultSinPromocion, updateProductoPedidoWith, updatePedidoWith, findPedido,
      pagosByPedido, SR.isOk, linesTotal]

theorem pagosByPedido_updatePagoWith (db : DB) (i j : ℕ) (f : Pago → Pago)
    (hf : ∀ g, (f g).idPedido = g.idPedido) :
    pagosByPedido (updatePagoWith db i f) j =
      (pagosByPedido db j).map (fun g => if g.idPago == i then f g else g) := by
  unfold pagosByPedido updatePagoWith
  rw [List.filter_map]
  have hpred : ((fun g : Pago => g.idPedido == j) ∘
      (fun g => if g.idPago == i then f g else g)) = (fun g => g.idPedido == j) := by
    funext g
    by_cases h : g.idPago == i
    · simp [Function.comp, h, hf]
    · simp [Function.comp, h]
  rw [hpred]

theorem pagosByPedido_createPago (db : DB) (i m : ℕ) (monto : ℚ) (fecha : ℤ)
    (url : String) (j : ℕ) :
    pagosByPedido (createPago db i m monto fecha url).2 j =
      pagosByPedido db j ++
        (if i == j then [(createPago db i m monto fecha url).1] else []) := by
  unfold pagosByPedido createPago
  dsimp only
  rw [List.filter_append]
  by_cases h : i == j
  · simp [h]
  · simp [h]

theorem pagosByPedido_calcTotalPromosLoop (env : Env) (j : ℕ) :
    ∀ (ls : List ProductoPedido) (acc : ℚ) (db : DB),
      pagosByPedido (calcTotalPromosLoop env ls acc db).2 j = pagosByPedido db j
  | [], _, _ => rfl
  | l :: rest, acc, db => by
      unfold calcTotalPromosLoop
      rw [pagosByPedido_calcTotalPromosLoop env j rest _ _]
      rfl

/-- A successful `registerPayment` leaves a payment row for the order. -/
theorem registerPayment_ok_pago (env : Env) (db : DB)
    (idPedido idUsuario idMetodoPago : ℕ) (direccionEntrega : Option String)
    (hok : (registerPayment env db idPedido idUsuario idMetodoPago
      direccionEntrega).resultado.isOk = true) :
    pagosByPedido (registerPayment env db idPedido idUsuario idMetodoPago
      direccionEntrega).db idPedido ≠ [] := by
  unfold registerPayment at hok ⊢
  simp only [reservarInventario_id] at hok ⊢
  revert hok
  repeat' split
  all_goals intro hok
  all_goals simp only [SR.isOk] at hok
  all_goals try exact absurd hok Bool.false_ne_true
  all_goals
    rw [pagosByPedido_updatePagoWith _ _ idPedido
        (fun g => { g with urlComprobante := "recibo.pdf" }) (fun g => rfl),
      pagosByPedido_updatePedidoWith, pagosByPedido_createPago,
      pagosByPedido_calcTotalPromosLoop]
  all_goals simp

/-- `updateOrderStatus` never touches the payment table. -/
theorem updateOrderStatus_pagos (db : DB) (idPedido : ℕ) (nuevoEstado : String) (j : ℕ) :
    pagosByPedido (updateOrderStatus db idPedido nuevoEstado).2 j = pagosByPedido db j := by
  unfold updateOrderStatus
  dsimp only
  repeat' split
  all_goals rfl

/-- C4 (amended): `updateOrderStatus` gates entering `pendiente` on an
existing payment row (and leaves the payment table untouched), and
`registerPayment` inserts the payment row before the order becomes
`pendiente`, so a payment exists the moment it commits; `confirmOrder`,
however, also sets `pendiente` and performs no payment check at all (see
the counterexample), so the payment gate holds only for the first two
operations. -/
theorem pendiente_gated_on_pago :
    (∀ (db : DB) (idPedido : ℕ) (nuevoEstado : String) (p' : Pedido),
      (updateOrderStatus db idPedido nuevoEstado).1 = .ok p' →
      nuevoEstado = "pendiente" →
      pagosByPedido db idPedido ≠ [] ∧
      pagosByPedido (updateOrderStatus db idPedido nuevoEstado).2 idPedido =
        pagosByPedido db idPedido)
    ∧ (∀ (env : Env) (db : DB) (idPedido idUsuario idMetodoPago : ℕ)
        (direccionEntrega : Option String),
        (registerPayment env db idPedido idUsuario idMetodoPago
          direccionEntrega).resultado.isOk = true →
        pagosByPedido (registerPayment env db idPedido idUsuario idMetodoPago
          direccionEntrega).db idPedido ≠ []) := by
  constructor
  · intro db idPedido nuevoEstado p' hok hpend
    subst hpend
    refine ⟨?_, updateOrderStatus_pagos db idPedido "pendiente" idPedido⟩
    unfold updateOrderStatus at hok
    cases hp : findPedido db idPedido with
    | none =>
        rw [hp] at hok
        exact absurd hok (by simp)
    | some pedido =>
        rw [hp] at hok
        dsimp only at hok
        by_cases h1 : (["sin_confirmar", "pendiente", "entregado", "cancelado"].contains
            "pendiente") = false
        · rw [if_pos h1] at hok; exact absurd hok (by simp)
        · rw [if_neg h1] at hok
          by_cases h2 : (pedido.estado == "entregado") = true
          · rw [if_pos h2] at hok; exact absurd hok (by simp)
          · rw [if_neg h2] at hok
            by_cases h3 : (pedido.estado == "cancelado") = true
            · rw [if_pos h3] at hok; exact absurd hok (by simp)
            · rw [if_neg h3] at hok
              by_cases h4 : ((transicionesValidas pedido.estado).contains "pendiente") = false
              · rw [if_pos h4] at hok; exact absurd hok (by simp)
              · rw [if_neg h4] at hok
                by_cases h5 : (("pendiente" == "pendiente") &&
                    (pagosByPedido db idPedido).isEmpty) = true
                · rw [if_pos h5] at hok; exact absurd hok (by simp)
                · have hne : (pagosByPedido db idPedido).isEmpty = false := by
                    simpa using h5
                  simpa [List.isEmpty_iff] using hne
  · exact fun env db i u m d hok => registerPayment_ok_pago env db i u m d hok

/-- Witness for the amended C4: a pending-payment transition succeeds on
an order that has a payment row. -/
theorem pendiente_gated_on_pago_witness :
    pagosByPedido
        ⟨[⟨1, 7, 10, "sin_confirmar", "web", 0, none, none⟩], [],
         [⟨1, 1, 1, 10, 0, ""⟩], [], 2, 1, 2⟩ 1 ≠ [] :=
  (pendiente_gated_on_pago.1
    ⟨[⟨1, 7, 10, "sin_confirmar", "web", 0, none, none⟩], [],
     [⟨1, 1, 1, 10, 0, ""⟩], [], 2, 1, 2⟩ 1 "pendiente"
    ⟨1, 7, 10, "pendiente", "web", 0, none, none⟩ (by rfl) rfl).1

/- ------------------------------------------------------------------ -/
/- C5: at most one unconfirmed order per customer                     -/
/- ------------------------------------------------------------------ -/

/-- Environment for the C5 counterexample: product 9 active, stock 5. -/
def envCrear : Env :=
  ⟨fun p => if p == 9 then some ⟨10, true, 5⟩ else none, fun _ => false,
   fun _ => none, fun _ => false, fun _ => none, [], false, false, false, 0⟩

/-- Store for the C5 counterexample: staff user 7 already owns an
unconfirmed order. -/
def dbCarritoEmpleado : DB :=
  ⟨[⟨1, 7, 0, "sin_confirmar", "web", 0, none, none⟩], [], [], [], 2, 1, 1⟩

/-- Counterexample to C5 as stated: a successful `createCustomerOrder`
by a staff user who already owns an unconfirmed order leaves two
`sin_confirmar` orders for the same `idUsuario`. -/
theorem createCustomerOrder_segundo_sin_confirmar :
    (createCustomerOrder envCrear dbCarritoEmpleado 7 [⟨9, 1⟩] none).1.isOk = true ∧
    ((createCustomerOrder envCrear dbCarritoEmpleado 7 [⟨9, 1⟩] none).2.pedidos.filter
        (fun p => p.idUsuario == 7 && p.estado == "sin_confirmar")).length = 2 := by
  refine ⟨?_, ?_⟩ <;>
    simp [createCustomerOrder, envCrear, dbCarritoEmpleado, validarProductos,
      insertarLineas, createPedido, createProductoPedido, updatePedidoWith,
      findPedido, SR.isOk]

/-- Invariant of C5: every customer has at most one `sin_confirmar`
order. -/
def UnicoCarrito (db : DB) : Prop :=
  ∀ u : ℕ, (db.pedidos.filter
    (fun p => p.idUsuario == u && p.estado == "sin_confirmar")).length ≤ 1

theorem carritos_updatePedidoWith (db : DB) (i : ℕ) (f : Pedido → Pedido) (u : ℕ)
    (hf : ∀ p, (f p).idUsuario = p.idUsuario ∧ (f p).estado = p.estado) :
    ((updatePedidoWith db i f).pedidos.filter
      (fun p => p.idUsuario == u && p.estado == "sin_confirmar")).length =
    (db.pedidos.filter
      (fun p => p.idUsuario == u && p.estado == "sin_confirmar")).length := by
  unfold updatePedidoWith
  dsimp only
  rw [List.filter_map]
  have hpred : ((fun p : Pedido => p.idUsuario == u && p.estado == "sin_confirmar") ∘
      (fun p => if p.idPedido == i then f p else p)) =
      (fun p => p.idUsuario == u && p.estado == "sin_confirmar") := by
    funext p
    by_cases h : p.idPedido == i
    · simp [Function.comp, h, (hf p).1, (hf p).2]
    · simp [Function.comp, h]
  rw [hpred, List.length_map]

theorem carritos_addOrUpdateProduct (db : DB) (i p : ℕ) (c : ℤ) (precio : ℚ) (u : ℕ) :
    (((addOrUpdateProduct db i p c precio).2).pedidos.filter
      (fun q => q.idUsuario == u && q.estado == "sin_confirmar")).length =
    (db.pedidos.filter
      (fun q => q.idUsuario == u && q.estado == "sin_confirmar")).length := by
  unfold addOrUpdateProduct
  dsimp only
  split
  all_goals exact carritos_updatePedidoWith _ i _ u (fun q => ⟨rfl, rfl⟩)

/-- C5 (amended): `addProductToCart` finds-or-creates the cart and so
preserves the at-most-one-unconfirmed-order-per-customer invariant (it
creates a cart only when the customer has none).  `createCustomerOrder`
does not preserve it: it unconditionally creates a fresh unconfirmed
order for the staff user (see the counterexample). -/
theorem addProductToCart_unico_carrito (env : Env) (db : DB)
    (idUsuario idProducto : ℕ) (cantidad : ℤ) (hinv : UnicoCarrito db) :
    UnicoCarrito (addProductToCart env db idUsuario idProducto cantidad).2 := by
  unfold addProductToCart
  by_cases hq : cantidad ≤ 0
  · rw [if_pos hq]; exact hinv
  · rw [if_neg hq]
    by_cases hf : env.inventarioFalla idProducto = true
    · rw [if_pos hf]; exact hinv
    · rw [if_neg hf]
      cases hp : env.inventario idProducto with
      | none => exact hinv
      | some producto =>
          dsimp only
          by_cases ha : producto.activo = false
          · rw [if_pos ha]; exact hinv
          · rw [if_neg ha]
            cases hc : findCarrito db idUsuario with
            | some cart =>
                dsimp only
                intro u
                have hcount := carritos_addOrUpdateProduct db cart.idPedido idProducto
                  cantidad producto.precio u
                generalize hgen : addOrUpdateProduct db cart.idPedido idProducto
                  cantidad producto.precio = r at hcount ⊢
                cases hr : r.1.2 with
                | some pa => dsimp only; rw [hcount]; exact hinv u
                | none => dsimp only; rw [hcount]; exact hinv u
            | none =>
                dsimp only
                intro u
                have hcount := carritos_addOrUpdateProduct
                  (createPedido db idUsuario 0 "sin_confirmar" "web" env.ahora none none).2
                  (createPedido db idUsuario 0 "sin_confirmar" "web" env.ahora
                    none none).1.idPedido idProducto cantidad producto.precio u
                have hcreado : ((createPedido db idUsuario 0 "sin_confirmar" "web" env.ahora
                    none none).2.pedidos.filter
                    (fun p => p.idUsuario == u && p.estado == "sin_confirmar")).length ≤ 1 := by
                  unfold createPedido
                  dsimp only
                  rw [List.filter_append]
                  by_cases hu : u = idUsuario
                  · subst hu
                    have hvacio : db.pedidos.filter
                        (fun p => p.idUsuario == u && p.estado == "sin_confirmar") = [] := by
                      rw [List.filter_eq_nil_iff]
                      intro p hmem
                      have := List.find?_eq_none.mp hc p hmem
                      simpa [findCarrito] using this
                    rw [hvacio]
                    simp
                  · have hnuevo : (([(⟨db.nextPedido, idUsuario, 0, "sin_confirmar", "web",
                        env.ahora, none, none⟩ : Pedido)]).filter
                        (fun p => p.idUsuario == u && p.estado == "sin_confirmar")) = [] := by
                      simp
                      omega
                    rw [hnuevo, List.append_nil]
                    exact hinv u
                rw [← hcount] at hcreado
                generalize hgen : addOrUpdateProduct
                  (createPedido db idUsuario 0 "sin_confirmar" "web" env.ahora none none).2
                  (createPedido db idUsuario 0 "sin_confirmar" "web" env.ahora
                    none none).1.idPedido idProducto cantidad producto.precio = r at hcreado ⊢
                cases hr : r.1.2 with
                | some pa => dsimp only; exact hcreado
                | none => dsimp only; exact hcreado

/-- Witness for the amended C5 on an empty store. -/
theorem addProductToCart_unico_carrito_witness :
    UnicoCarrito (addProductToCart envCrear dbVacia 7 9 1).2 :=
  addProductToCart_unico_carrito envCrear dbVacia 7 9 1
    (fun u => by simp [dbVacia])

/- ------------------------------------------------------------------ -/
/- C6: order totals always equal the sum of line subtotals            -/
/- ------------------------------------------------------------------ -/

/-- The C6 invariant: every order's `total` is the sum of the
`subtotal`s of its lines. -/
def TotalesCoherentes (db : DB) : Prop :=
  ∀ p ∈ db.pedidos, p.total = linesTotal db p.idPedido

/-- Relational well-formedness used by the preservation proofs: line ids
are unique and line foreign keys only reference already-allocated order
ids. -/
def BuenForma (db : DB) : Prop :=
  (db.productosPedido.map (fun x => x.idProductoPedido)).Nodup ∧
  (∀ l ∈ db.productosPedido, l.idPedido < db.nextPedido)

/-- All prices served by the inventory collaborator are whole cents
(`DECIMAL(10,2)` money). -/
def PreciosCents (env : Env) : Prop :=
  ∀ (pid : ℕ) (prod : Producto), env.inventario pid = some prod → IsCents prod.precio

theorem sum_update_lista (lid : ℕ) (f : ProductoPedido → ProductoPedido)
    (hfid : ∀ x, (f x).idProductoPedido = x.idProductoPedido)
    (hfped : ∀ x, (f x).idPedido = x.idPedido) (j : ℕ) :
    ∀ (ls : List ProductoPedido) (l : ProductoPedido), l ∈ ls →
      l.idProductoPedido = lid →
      (ls.map (fun x => x.idProductoPedido)).Nodup →
      ((((ls.map (fun x => if x.idProductoPedido == lid then f x else x)).filter
          (fun x => x.idPedido == j)).map (fun x => x.subtotal)).sum : ℚ) =
      (((ls.filter (fun x => x.idPedido == j)).map (fun x => x.subtotal)).sum : ℚ)
        - (if l.idPedido == j then l.subtotal else 0)
        + (if l.idPedido == j then (f l).subtotal else 0)
  | [], l, hl, _, _ => absurd hl (List.not_mem_nil l)
  | x :: xs, l, hl, hlid, hnd => by
      have hnd2 := List.nodup_cons.mp hnd
      rcases List.mem_cons.mp hl with rfl | hmem
      · have hcabeza : (l.idProductoPedido == lid) = true := by simp [hlid]
        have hcola : xs.map (fun y => if y.idProductoPedido == lid then f y else y) = xs := by
          have hcada : ∀ y ∈ xs, (if y.idProductoPedido == lid then f y else y) = y := by
            intro y hy
            rw [if_neg]
            intro hcon
            apply hnd2.1
            have hyid : y.idProductoPedido = lid := by simpa using hcon
            show l.idProductoPedido ∈ List.map (fun x => x.idProductoPedido) xs
            rw [hlid, ← hyid]
            exact List.mem_map_of_mem _ hy
          rw [List.map_congr_left hcada]
          simp
        simp only [List.map_cons, hcabeza, if_true, hcola]
        rw [List.filter_cons, List.filter_cons]
        by_cases hj : (l.idPedido == j) = true
        · have hfj : ((f l).idPedido == j) = true := by rw [hfped]; exact hj
          simp only [hj, hfj, if_true, List.map_cons, List.sum_cons]
          ring
        · have hfj : ((f l).idPedido == j) = false := by
            rw [hfped l]; simpa using hj
          simp only [hj, hfj, Bool.false_eq_true, if_false]
          simp [hj]
      · have hxl : (x.idProductoPedido == lid) = false := by
          simp only [beq_eq_false_iff_ne, ne_eq]
          intro hcon
          apply hnd2.1
          show x.idProductoPedido ∈ List.map (fun y => y.idProductoPedido) xs
          rw [hcon, ← hlid]
          exact List.mem_map_of_mem _ hmem
        simp only [List.map_cons, hxl, Bool.false_eq_true, if_false]
        rw [List.filter_cons, List.filter_cons]
        by_cases hj : (x.idPedido == j) = true
        · simp only [hj, if_true, List.map_cons, List.sum_cons]
          rw [sum_update_lista lid f hfid hfped j xs l hmem hlid hnd2.2]
          ring
        · simp only [hj, Bool.false_eq_true, if_false]
          exact sum_update_lista lid f hfid hfped j xs l hmem hlid hnd2.2

/-- Updating one line by id shifts the owning order's line sum by the
change in that line's subtotal and leaves every other order's sum
alone. -/
theorem linesTotal_updateLinea (db : DB) (l : ProductoPedido)
    (f : ProductoPedido → ProductoPedido)
    (hmem : l ∈ db.productosPedido)
    (hnd : (db.productosPedido.map (fun x => x.idProductoPedido)).Nodup)
    (hfid : ∀ x, (f x).idProductoPedido = x.idProductoPedido)
    (hfped : ∀ x, (f x).idPedido = x.idPedido) (j : ℕ) :
    linesTotal (updateProductoPedidoWith db l.idProductoPedido f) j =
      linesTotal db j - (if l.idPedido == j then l.subtotal else 0)
        + (if l.idPedido == j then (f l).subtotal else 0) := by
  unfold linesTotal productosByPedido updateProductoPedidoWith
  dsimp only
  exact sum_update_lista l.idProductoPedido f hfid hfped j db.productosPedido l hmem rfl hnd

theorem sum_delete_lista (lid : ℕ) (j : ℕ) :
    ∀ (ls : List ProductoPedido) (l : ProductoPedido), l ∈ ls →
      l.idProductoPedido = lid →
      (ls.map (fun x => x.idProductoPedido)).Nodup →
      ((((ls.filter (fun x => !(x.idProductoPedido == lid))).filter
          (fun x => x.idPedido == j)).map (fun x => x.subtotal)).sum : ℚ) =
      (((ls.filter (fun x => x.idPedido == j)).map (fun x => x.subtotal)).sum : ℚ)
        - (if l.idPedido == j then l.subtotal else 0)
  | [], l, hl, _, _ => absurd hl (List.not_mem_nil l)
  | x :: xs, l, hl, hlid, hnd => by
      have hnd2 := List.nodup_cons.mp hnd
      rcases List.mem_cons.mp hl with rfl | hmem
      · have hcabeza : (!(l.idProductoPedido == lid)) = false := by simp [hlid]
        have hcola : xs.filter (fun y => !(y.idProductoPedido == lid)) = xs := by
          rw [List.filter_eq_self]
          intro y hy
          simp only [Bool.not_eq_true', beq_eq_false_iff_ne, ne_eq]
          intro hcon
          apply hnd2.1
          show l.idProductoPedido ∈ List.map (fun x => x.idProductoPedido) xs
          rw [hlid, ← hcon]
          exact List.mem_map_of_mem _ hy
        rw [List.filter_cons, hcabeza]
        simp only [Bool.false_eq_true, if_false, hcola]
        rw [List.filter_cons]
        by_cases hj : (l.idPedido == j) = true
        · simp only [hj, if_true, List.map_cons, List.sum_cons]
          ring
        · simp only [hj, Bool.false_eq_true, if_false]
          simp [hj]
      · have hxl : (!(x.idProductoPedido == lid)) = true := by
          simp only [Bool.not_eq_eq_eq_not, Bool.not_true, beq_eq_false_iff_ne, ne_eq]
          intro hcon
          apply hnd2.1
          show x.idProductoPedido ∈ List.map (fun y => y.idProductoPedido) xs
          rw [hcon, ← hlid]
          exact List.mem_map_of_mem _ hmem
        rw [List.filter_cons, hxl]
        simp only [if_true]
        rw [List.filter_cons, List.filter_cons]
        by_cases hj : (x.idPedido == j) = true
        · simp only [hj, if_true, List.map_cons, List.sum_cons]
          rw [sum_delete_lista lid j xs l hmem hlid hnd2.2]
          ring
        · simp only [hj, Bool.false_eq_true, if_false]
          exact sum_delete_lista lid j xs l hmem hlid hnd2.2

theorem linesTotal_deleteLinea (db : DB) (l : ProductoPedido)
    (hmem : l ∈ db.productosPedido)
    (hnd : (db.productosPedido.map (fun x => x.idProductoPedido)).Nodup) (j : ℕ) :
    linesTotal (deleteProductoPedido db l.idProductoPedido) j =
      linesTotal db j - (if l.idPedido == j then l.subtotal else 0) := by
  unfold linesTotal productosByPedido deleteProductoPedido
  dsimp only
  exact sum_delete_lista l.idProductoPedido j db.productosPedido l hmem rfl hnd

theorem linesTotal_createLinea (db : DB) (i p : ℕ) (c : ℤ) (pu st : ℚ) (j : ℕ) :
    linesTotal (createProductoPedido db i p c pu st).2 j =
      linesTotal db j + (if i == j then st else 0) := by
  unfold linesTotal productosByPedido createProductoPedido
  dsimp only
  rw [List.filter_append, List.map_append, List.sum_append]
  by_cases h : (i == j) = true
  · simp [h]
  · simp [h]

theorem linesTotal_updatePedidoWith (db : DB) (i : ℕ) (g : Pedido → Pedido) (j : ℕ) :
    linesTotal (updatePedidoWith db i g) j = linesTotal db j := rfl

/-- The recompute pattern: after setting order `i`'s total to the
current sum of its lines, the invariant holds provided every other order
already satisfied it. -/
theorem coherente_recompute (dbx : DB) (i : ℕ) (g : Pedido → Pedido)
    (hgid : ∀ p, (g p).idPedido = p.idPedido)
    (hgtot : ∀ p, (g p).total = linesTotal dbx i)
    (hothers : ∀ p ∈ dbx.pedidos, p.idPedido ≠ i → p.total = linesTotal dbx p.idPedido) :
    TotalesCoherentes (updatePedidoWith dbx i g) := by
  intro p' hp'
  unfold updatePedidoWith at hp'
  dsimp only at hp'
  obtain ⟨p, hpmem, hpeq⟩ := List.mem_map.mp hp'
  have hlt : ∀ j, linesTotal (updatePedidoWith dbx i g) j = linesTotal dbx j :=
    linesTotal_updatePedidoWith dbx i g
  rw [hlt]
  by_cases hpi : (p.idPedido == i) = true
  · rw [if_pos hpi] at hpeq
    subst hpeq
    rw [hgtot p, hgid p]
    have hpe : p.idPedido = i := by simpa using hpi
    rw [hpe]
  · rw [if_neg (by simpa using hpi)] at hpeq
    subst hpeq
    exact hothers p hpmem (by simpa using hpi)

theorem mem_update_other (db : DB) (lid : ℕ) (f : ProductoPedido → ProductoPedido)
    (x : ProductoPedido) (h : x ∈ db.productosPedido)
    (hne : x.idProductoPedido ≠ lid) :
    x ∈ (updateProductoPedidoWith db lid f).productosPedido :=
  List.mem_map.mpr ⟨x, h, by rw [if_neg (by simpa using hne)]⟩

theorem ids_update (db : DB) (lid : ℕ) (f : ProductoPedido → ProductoPedido)
    (hfid : ∀ x, (f x).idProductoPedido = x.idProductoPedido) :
    (updateProductoPedidoWith db lid f).productosPedido.map
      (fun x => x.idProductoPedido) =
    db.productosPedido.map (fun x => x.idProductoPedido) := by
  unfold updateProductoPedidoWith
  dsimp only
  rw [List.map_map]
  apply List.map_congr_left
  intro x hx
  by_cases h : (x.idProductoPedido == lid) = true
  · simp [Function.comp, h, hfid]
  · simp [Function.comp, h]

/-- The repricing loop's effect on the store: order rows untouched, the
target order's line sum shifts by exactly the accumulated subtotal
change, other orders' line sums untouched. -/
theorem calcTotalPromosLoop_props (env : Env) (i : ℕ) (ls : List ProductoPedido) :
    ∀ (acc : ℚ) (db : DB),
      (∀ l ∈ ls, l ∈ db.productosPedido ∧ l.idPedido = i) →
      ((ls.map (fun x => x.idProductoPedido)).Nodup) →
      ((db.productosPedido.map (fun x => x.idProductoPedido)).Nodup) →
      (calcTotalPromosLoop env ls acc db).2.pedidos = db.pedidos ∧
      linesTotal (calcTotalPromosLoop env ls acc db).2 i
        = linesTotal db i - ((ls.map (fun x => x.subtotal)).sum)
          + ((calcTotalPromosLoop env ls acc db).1 - acc) ∧
      (∀ j, j ≠ i → linesTotal (calcTotalPromosLoop env ls acc db).2 j = linesTotal db j) := by
  induction ls with
  | nil =>
      intro acc db _ _ _
      refine ⟨rfl, ?_, fun j _ => rfl⟩
      unfold calcTotalPromosLoop
      simp
  | cons l rest ih =>
      intro acc db hmem hnd hdbnd
      obtain ⟨hldb, hli⟩ := hmem l (List.mem_cons_self l rest)
      have hnd2 := List.nodup_cons.mp hnd
      have hstep : calcTotalPromosLoop env (l :: rest) acc db =
          calcTotalPromosLoop env rest
            (acc + (calcularPrecioConPromocion env l.idProducto
              l.cantidad).precioFinal * (l.cantidad : ℚ))
            (updateProductoPedidoWith db l.idProductoPedido
              (fun x => { x with
                precioUnitario := (calcularPrecioConPromocion env l.idProducto
                  l.cantidad).precioFinal
                subtotal := (calcularPrecioConPromocion env l.idProducto
                  l.cantidad).precioFinal * (l.cantidad : ℚ) })) := rfl
      rw [hstep]
      have hmem2 : ∀ l' ∈ rest,
          l' ∈ (updateProductoPedidoWith db l.idProductoPedido
            (fun x => { x with
              precioUnitario := (calcularPrecioConPromocion env l.idProducto
                l.cantidad).precioFinal
              subtotal := (calcularPrecioConPromocion env l.idProducto
                l.cantidad).precioFinal * (l.cantidad : ℚ) })).productosPedido ∧
          l'.idPedido = i := by
        intro l' hl'
        refine ⟨mem_update_other db l.idProductoPedido _ l' (hmem l'
          (List.mem_cons_of_mem l hl')).1 ?_, (hmem l' (List.mem_cons_of_mem l hl')).2⟩
        intro hcon
        apply hnd2.1
        show l.idProductoPedido ∈ List.map (fun x => x.idProductoPedido) rest
        rw [← hcon]
        exact List.mem_map_of_mem _ hl'
      have hdbnd2 := ids_update db l.idProductoPedido
        (fun x => { x with
          precioUnitario := (calcularPrecioConPromocion env l.idProducto
            l.cantidad).precioFinal
          subtotal := (calcularPrecioConPromocion env l.idProducto
            l.cantidad).precioFinal * (l.cantidad : ℚ) }) (fun x => rfl)
      obtain ⟨hped, htot, hother⟩ := ih _ _ hmem2 hnd2.2 (hdbnd2 ▸ hdbnd)
      have hupd := linesTotal_updateLinea db l
        (fun x => { x with
          precioUnitario := (calcularPrecioConPromocion env l.idProducto
            l.cantidad).precioFinal
          subtotal := (calcularPrecioConPromocion env l.idProducto
            l.cantidad).precioFinal * (l.cantidad : ℚ) })
        hldb hdbnd (fun x => rfl) (fun x => rfl)
      refine ⟨by rw [hped]; rfl, ?_, ?_⟩
      · rw [htot]
        have h1 := hupd i
        rw [show (l.idPedido == i) = true from by simp [hli]] at h1
        simp only [if_true] at h1
        rw [h1]
        simp only [List.map_cons, List.sum_cons]
        ring
      · intro j hj
        rw [hother j hj]
        have h1 := hupd j
        rw [show (l.idPedido == j) = false from by
          simp only [beq_eq_false_iff_ne, ne_eq, hli]
          exact fun hc => hj hc.symm] at h1
        simp only [Bool.false_eq_true, if_false] at h1
        rw [h1]
        ring

theorem precioFinal_isCents (env : Env) (hic : PreciosCents env) (p : ℕ) (q : ℤ) :
    IsCents (calcularPrecioConPromocion env p q).precioFinal := by
  unfold calcularPrecioConPromocion
  by_cases hf : env.inventarioFalla p = true
  · rw [if_pos hf]; exact IsCents.zero
  · rw [if_neg hf]
    cases hp : env.inventario p with
    | none => exact IsCents.zero
    | some prod =>
        dsimp only
        by_cases hpf : env.promocionesFalla p = true
        · rw [if_pos hpf]; exact hic p prod hp
        · rw [if_neg hpf]
          cases hpl : env.promociones p with
          | none => exact hic p prod hp
          | some promos =>
              dsimp only
              by_cases he : promos.isEmpty = true
              · rw [if_pos he]; exact hic p prod hp
              · rw [if_neg he]
                cases hsel : seleccionarMejorPromocion promos prod.precio q env.ahora with
                | none => exact hic p prod hp
                | some sel =>
                    obtain ⟨pp, fin, desc⟩ := sel
                    exact round2_isCents fin

theorem calcTotalPromosLoop_isCents (env : Env) (hic : PreciosCents env) :
    ∀ (ls : List ProductoPedido) (acc : ℚ) (db : DB), IsCents acc →
      IsCents (calcTotalPromosLoop env ls acc db).1
  | [], _, _, h => h
  | l :: rest, acc, db, h => by
      unfold calcTotalPromosLoop
      exact calcTotalPromosLoop_isCents env hic rest _ _
        (h.add ((precioFinal_isCents env hic l.idProducto l.cantidad).mul_int l.cantidad))

theorem linesTotal_fresco (db : DB) (hbf : BuenForma db) :
    linesTotal db db.nextPedido = 0 := by
  unfold linesTotal productosByPedido
  have hnil : db.productosPedido.filter (fun l => l.idPedido == db.nextPedido) = [] := by
    rw [List.filter_eq_nil_iff]
    intro l hl
    have := hbf.2 l hl
    simp only [beq_iff_eq]
    omega
  rw [hnil]
  rfl

theorem addOrUpdateProduct_coherente (db : DB) (i p : ℕ) (c : ℤ) (precio : ℚ)
    (hbf : BuenForma db) (hinv : TotalesCoherentes db) :
    TotalesCoherentes (addOrUpdateProduct db i p c precio).2 := by
  unfold addOrUpdateProduct
  dsimp only
  cases hfind : db.productosPedido.find?
      (fun l => l.idPedido == i && l.idProducto == p) with
  | some l =>
      dsimp only
      have hlmem : l ∈ db.productosPedido := List.mem_of_find?_eq_some hfind
      have hli : l.idPedido = i := by
        have := List.find?_some hfind
        simp only [Bool.and_eq_true, beq_iff_eq] at this
        exact this.1
      apply coherente_recompute
      · intro q; rfl
      · intro q; rfl
      · intro q hq hqi
        have hq' : q ∈ db.pedidos := hq
        have hupd := linesTotal_updateLinea db l
          (fun x => { x with cantidad := l.cantidad + c
                             subtotal := ((l.cantidad + c : ℤ) : ℚ) * precio
                             precioUnitario := precio })
          hlmem hbf.1 (fun x => rfl) (fun x => rfl) q.idPedido
        rw [show (l.idPedido == q.idPedido) = false from by
          simp only [beq_eq_false_iff_ne, ne_eq, hli]
          exact fun hcon => hqi hcon.symm] at hupd
        simp only [Bool.false_eq_true, if_false] at hupd
        rw [hupd]
        simp only [sub_zero, add_zero]
        exact hinv q hq'
  | none =>
      dsimp only
      apply coherente_recompute
      · intro q; rfl
      · intro q; rfl
      · intro q hq hqi
        have hq' : q ∈ db.pedidos := hq
        have hupd := linesTotal_createLinea db i p c precio ((c : ℚ) * precio) q.idPedido
        rw [show (i == q.idPedido) = false from by
          simp only [beq_eq_false_iff_ne, ne_eq]
          exact fun hcon => hqi hcon.symm] at hupd
        simp only [Bool.false_eq_true, if_false, add_zero] at hupd
        rw [hupd]
        exact hinv q hq'

theorem addProductToCart_coherente (env : Env) (db : DB) (idUsuario idProducto : ℕ)
    (cantidad : ℤ) (hbf : BuenForma db) (hinv : TotalesCoherentes db) :
    TotalesCoherentes (addProductToCart env db idUsuario idProducto cantidad).2 := by
  unfold addProductToCart
  by_cases hq : cantidad ≤ 0
  · rw [if_pos hq]; exact hinv
  · rw [if_neg hq]
    by_cases hf : env.inventarioFalla idProducto = true
    · rw [if_pos hf]; exact hinv
    · rw [if_neg hf]
      cases hp : env.inventario idProducto with
      | none => exact hinv
      | some producto =>
          dsimp only
          by_cases ha : producto.activo = false
          · rw [if_pos ha]; exact hinv
          · rw [if_neg ha]
            cases hc : findCarrito db idUsuario with
            | some cart =>
                dsimp only
                have hco := addOrUpdateProduct_coherente db cart.idPedido idProducto
                  cantidad producto.precio hbf hinv
                generalize hgen : addOrUpdateProduct db cart.idPedido idProducto
                  cantidad producto.precio = r at hco ⊢
                cases hr : r.1.2 with
                | some pa => exact hco
                | none => exact hco
            | none =>
                dsimp only
                have hbfY : BuenForma (createPedido db idUsuario 0 "sin_confirmar" "web"
                    env.ahora none none).2 := by
                  refine ⟨hbf.1, ?_⟩
                  intro l hl
                  have := hbf.2 l hl
                  unfold createPedido
                  dsimp only
                  omega
                have hinvY : TotalesCoherentes (createPedido db idUsuario 0 "sin_confirmar"
                    "web" env.ahora none none).2 := by
                  intro q hq
                  unfold createPedido at hq ⊢
                  dsimp only at hq ⊢
                  rcases List.mem_append.mp hq with hq1 | hq2
                  · exact hinv q hq1
                  · have hqeq : q = ⟨db.nextPedido, idUsuario, 0, "sin_confirmar", "web",
                        env.ahora, none, none⟩ := by simpa using hq2
                    subst hqeq
                    exact (linesTotal_fresco db hbf).symm
                have hco := addOrUpdateProduct_coherente
                  (createPedido db idUsuario 0 "sin_confirmar" "web" env.ahora none none).2
                  (createPedido db idUsuario 0 "sin_confirmar" "web" env.ahora
                    none none).1.idPedido idProducto cantidad producto.precio hbfY hinvY
                generalize hgen : addOrUpdateProduct
                  (createPedido db idUsuario 0 "sin_confirmar" "web" env.ahora none none).2
                  (createPedido db idUsuario 0 "sin_confirmar" "web" env.ahora
                    none none).1.idPedido idProducto cantidad producto.precio = r at hco ⊢
                cases hr : r.1.2 with
                | some pa => exact hco
                | none => exact hco

theorem removeProductFromCart_coherente (db : DB) (idProductoPedido idUsuario : ℕ)
    (hbf : BuenForma db) (hinv : TotalesCoherentes db) :
    TotalesCoherentes (removeProductFromCart db idProductoPedido idUsuario).2 := by
  unfold removeProductFromCart
  cases hl : findProductoPedido db idProductoPedido with
  | none => exact hinv
  | some lineaPedido =>
      dsimp only
      cases hp : findPedido db lineaPedido.idPedido with
      | none => exact hinv
      | some pedido =>
          dsimp only
          by_cases hu : pedido.idUsuario ≠ idUsuario
          · rw [if_pos hu]; exact hinv
          · rw [if_neg hu]
            by_cases he : pedido.estado ≠ "sin_confirmar"
            · rw [if_pos he]; exact hinv
            · rw [if_neg he]
              have hlid : lineaPedido.idProductoPedido = idProductoPedido :=
                findProductoPedido_id hl
              have hlmem : lineaPedido ∈ db.productosPedido := List.mem_of_find?_eq_some hl
              have hpid : pedido.idPedido = lineaPedido.idPedido := findPedido_id hp
              have hpmem : pedido ∈ db.pedidos := List.mem_of_find?_eq_some hp
              have hdel := fun j => hlid ▸ linesTotal_deleteLinea db lineaPedido hlmem hbf.1 j
              apply coherente_recompute
              · intro q; rfl
              · intro q
                dsimp only
                rw [hdel pedido.idPedido]
                rw [show (lineaPedido.idPedido == pedido.idPedido) = true from by
                  simp [hpid]]
                simp only [if_true]
                rw [hinv pedido hpmem, hpid]
              · intro q hq hqi
                have hq' : q ∈ db.pedidos := hq
                rw [hdel q.idPedido]
                rw [show (lineaPedido.idPedido == q.idPedido) = false from by
                  simp only [beq_eq_false_iff_ne, ne_eq, ← hpid]
                  exact fun hcon => hqi hcon.symm]
                simp only [Bool.false_eq_true, if_false, sub_zero]
                exact hinv q hq'

theorem removeProductFromOrder_coherente (db : DB) (idProductoPedido : ℕ)
    (hbf : BuenForma db) (hinv : TotalesCoherentes db) :
    TotalesCoherentes (removeProductFromOrder db idProductoPedido).2 := by
  unfold removeProductFromOrder
  cases hl : findProductoPedido db idProductoPedido with
  | none => exact hinv
  | some lineaPedido =>
      dsimp only
      cases hp : findPedido db lineaPedido.idPedido with
      | none => exact hinv
      | some pedido =>
          dsimp only
          by_cases ht : (pedido.estado == "entregado" || pedido.estado == "cancelado") = true
          · rw [if_pos ht]; exact hinv
          · rw [if_neg ht]
            have hlid : lineaPedido.idProductoPedido = idProductoPedido :=
              findProductoPedido_id hl
            have hlmem : lineaPedido ∈ db.productosPedido := List.mem_of_find?_eq_some hl
            have hpid : pedido.idPedido = lineaPedido.idPedido := findPedido_id hp
            have hpmem : pedido ∈ db.pedidos := List.mem_of_find?_eq_some hp
            have hdel := fun j => hlid ▸ linesTotal_deleteLinea db lineaPedido hlmem hbf.1 j
            apply coherente_recompute
            · intro q; rfl
            · intro q
              dsimp only
              rw [hdel pedido.idPedido]
              rw [show (lineaPedido.idPedido == pedido.idPedido) = true from by
                simp [hpid]]
              simp only [if_true]
              rw [hinv pedido hpmem, hpid]
            · intro q hq hqi
              have hq' : q ∈ db.pedidos := hq
              rw [hdel q.idPedido]
              rw [show (lineaPedido.idPedido == q.idPedido) = false from by
                simp only [beq_eq_false_iff_ne, ne_eq, ← hpid]
                exact fun hcon => hqi hcon.symm]
              simp only [Bool.false_eq_true, if_false, sub_zero]
              exact hinv q hq'

theorem updateProductQuantity_coherente (db : DB) (idProductoPedido : ℕ)
    (nuevaCantidad : ℤ) (idUsuario : ℕ)
    (hbf : BuenForma db) (hinv : TotalesCoherentes db) :
    TotalesCoherentes (updateProductQuantity db idProductoPedido nuevaCantidad
      idUsuario).2 := by
  unfold updateProductQuantity
  cases hl : findProductoPedido db idProductoPedido with
  | none => exact hinv
  | some lineaPedido =>
      dsimp only
      cases hp : findPedido db lineaPedido.idPedido with
      | none => exact hinv
      | some pedido =>
          dsimp only
          by_cases hu : pedido.idUsuario ≠ idUsuario
          · rw [if_pos hu]; exact hinv
          · rw [if_neg hu]
            by_cases he : pedido.estado ≠ "sin_confirmar"
            · rw [if_pos he]; exact hinv
            · rw [if_neg he]
              by_cases hn : nuevaCantidad ≤ 0
              · rw [if_pos hn]
                have hco := removeProductFromCart_coherente db idProductoPedido idUsuario
                  hbf hinv
                generalize hgen : removeProductFromCart db idProductoPedido idUsuario = r
                  at hco ⊢
                obtain ⟨rr, rdb⟩ := r
                cases rr with
                | ok a => exact hco
                | err s => exact hco
                | exn => exact hco
              · rw [if_neg hn]
                have hlid : lineaPedido.idProductoPedido = idProductoPedido :=
                  findProductoPedido_id hl
                have hlmem : lineaPedido ∈ db.productosPedido := List.mem_of_find?_eq_some hl
                have hpid : pedido.idPedido = lineaPedido.idPedido := findPedido_id hp
                apply coherente_recompute
                · intro q; rfl
                · intro q; rfl
                · intro q hq hqi
                  have hq' : q ∈ db.pedidos := hq
                  have hupd := hlid ▸ linesTotal_updateLinea db lineaPedido
                    (fun x => { x with cantidad := nuevaCantidad
                                       subtotal := (nuevaCantidad : ℚ) *
                                         lineaPedido.precioUnitario })
                    hlmem hbf.1 (fun x => rfl) (fun x => rfl) q.idPedido
                  rw [show (lineaPedido.idPedido == q.idPedido) = false from by
                    simp only [beq_eq_false_iff_ne, ne_eq, ← hpid]
                    exact fun hcon => hqi hcon.symm] at hupd
                  simp only [Bool.false_eq_true, if_false] at hupd
                  rw [hupd]
                  simp only [sub_zero, add_zero]
                  exact hinv q hq'

theorem coherente_despues_find {α : Type} (db2 : DB) (i : ℕ)
    (g : Pedido → α) (e : α) (hco : TotalesCoherentes db2) :
    TotalesCoherentes (match findPedido db2 i with
      | some pedidoActualizado => (g pedidoActualizado, db2)
      | none => (e, db2)).2 := by
  cases findPedido db2 i with
  | some pa => exact hco
  | none => exact hco

theorem addProductToOrder_coherente (env : Env) (db : DB) (idPedido idProducto : ℕ)
    (cantidad : ℤ) (hbf : BuenForma db) (hinv : TotalesCoherentes db) :
    TotalesCoherentes (addProductToOrder env db idPedido idProducto cantidad).2 := by
  unfold addProductToOrder
  by_cases hq : cantidad ≤ 0
  · rw [if_pos hq]; exact hinv
  · rw [if_neg hq]
    cases hp : findPedido db idPedido with
    | none => exact hinv
    | some pedido =>
        dsimp only
        by_cases hc : (pedido.estado == "cancelado") = true
        · rw [if_pos hc]; exact hinv
        · rw [if_neg hc]
          by_cases hf : env.inventarioFalla idProducto = true
          · rw [if_pos hf]; exact hinv
          · rw [if_neg hf]
            cases hprod : env.inventario idProducto with
            | none => exact hinv
            | some producto =>
                dsimp only
                by_cases ha : producto.activo = false
                · rw [if_pos ha]; exact hinv
                · rw [if_neg ha]
                  by_cases hs : producto.stockActual < cantidad
                  · rw [if_pos hs]; exact hinv
                  · rw [if_neg hs]
                    cases hfind : db.productosPedido.find?
                        (fun l => l.idPedido == idPedido && l.idProducto == idProducto) with
                    | some l =>
                        dsimp only
                        by_cases hs2 : producto.stockActual < l.cantidad + cantidad
                        · rw [if_pos hs2]; exact hinv
                        · rw [if_neg hs2]
                          dsimp only
                          have hlmem : l ∈ db.productosPedido :=
                            List.mem_of_find?_eq_some hfind
                          have hli : l.idPedido = idPedido := by
                            have := List.find?_some hfind
                            simp only [Bool.and_eq_true, beq_iff_eq] at this
                            exact this.1
                          apply coherente_despues_find
                          apply coherente_recompute
                          · intro q; rfl
                          · intro q; rfl
                          · intro q hq2 hqi
                            have hq' : q ∈ db.pedidos := hq2
                            have hupd := linesTotal_updateLinea db l
                              (fun x => { x with cantidad := l.cantidad + cantidad
                                                 subtotal := ((l.cantidad + cantidad : ℤ) : ℚ) *
                                                   producto.precio
                                                 precioUnitario := producto.precio })
                              hlmem hbf.1 (fun x => rfl) (fun x => rfl) q.idPedido
                            rw [show (l.idPedido == q.idPedido) = false from by
                              simp only [beq_eq_false_iff_ne, ne_eq, hli]
                              exact fun hcon => hqi hcon.symm] at hupd
                            simp only [Bool.false_eq_true, if_false] at hupd
                            rw [hupd]
                            simp only [sub_zero, add_zero]
                            exact hinv q hq'
                    | none =>
                        dsimp only
                        apply coherente_despues_find
                        apply coherente_recompute
                        · intro q; rfl
                        · intro q; rfl
                        · intro q hq2 hqi
                          have hq' : q ∈ db.pedidos := hq2
                          have hupd := linesTotal_createLinea db idPedido idProducto
                            cantidad producto.precio ((cantidad : ℚ) * producto.precio)
                            q.idPedido
                          rw [show (idPedido == q.idPedido) = false from by
                            simp only [beq_eq_false_iff_ne, ne_eq]
                            exact fun hcon => hqi hcon.symm] at hupd
                          simp only [Bool.false_eq_true, if_false, add_zero] at hupd
                          rw [hupd]
                          exact hinv q hq'

theorem confirmOrder_coherente (env : Env) (db : DB) (idUsuario : ℕ)
    (direccionEntrega : Option String) (hbf : BuenForma db)
    (hinv : TotalesCoherentes db) (hic : PreciosCents env) :
    TotalesCoherentes (confirmOrder env db idUsuario direccionEntrega).2 := by
  unfold confirmOrder
  cases hcl : env.clientes idUsuario with
  | none => exact hinv
  | some cliente =>
      dsimp only
      cases hc : findCarrito db idUsuario with
      | none => exact hinv
      | some carritoPendiente =>
          dsimp only
          by_cases hvacio : (productosByPedido db carritoPendiente.idPedido).isEmpty = true
          · rw [if_pos hvacio]; exact hinv
          · rw [if_neg hvacio]
            cases hval : validateProductAvailability env
                (productosByPedido db carritoPendiente.idPedido) with
            | exn => exact hinv
            | err s => exact hinv
            | ok a =>
                dsimp only
                have hls : ∀ l ∈ productosByPedido db carritoPendiente.idPedido,
                    l ∈ db.productosPedido ∧ l.idPedido = carritoPendiente.idPedido := by
                  intro l hl
                  have := List.mem_filter.mp hl
                  exact ⟨this.1, by simpa using this.2⟩
                have hndls : ((productosByPedido db carritoPendiente.idPedido).map
                    (fun x => x.idProductoPedido)).Nodup :=
                  ((List.filter_sublist db.productosPedido).map _).nodup hbf.1
                obtain ⟨hped, htot, hother⟩ := calcTotalPromosLoop_props env
                  carritoPendiente.idPedido
                  (productosByPedido db carritoPendiente.idPedido) 0 db hls hndls hbf.1
                have hcents : IsCents (calcTotalPromosLoop env
                    (productosByPedido db carritoPendiente.idPedido) 0 db).1 :=
                  calcTotalPromosLoop_isCents env hic _ 0 db IsCents.zero
                have htot2 : linesTotal (calcTotalPromosLoop env
                    (productosByPedido db carritoPendiente.idPedido) 0 db).2
                    carritoPendiente.idPedido =
                    (calcTotalPromosLoop env
                      (productosByPedido db carritoPendiente.idPedido) 0 db).1 := by
                  rw [htot]
                  have : linesTotal db carritoPendiente.idPedido =
                      ((productosByPedido db carritoPendiente.idPedido).map
                        (fun x => x.subtotal)).sum := rfl
                  rw [this]
                  ring
                apply coherente_despues_find
                apply coherente_recompute
                · intro q; rfl
                · intro q
                  dsimp only
                  rw [hcents.round2_fix, htot2]
                · intro q hq hqi
                  have hq' : q ∈ db.pedidos := by
                    rw [← hped]; exact hq
                  rw [hother q.idPedido hqi]
                  exact hinv q hq'

theorem pedidos_createPago (db : DB) (i m : ℕ) (monto : ℚ) (fecha : ℤ) (url : String) :
    (createPago db i m monto fecha url).2.pedidos = db.pedidos := rfl

theorem linesTotal_createPago (db : DB) (i m : ℕ) (monto : ℚ) (fecha : ℤ) (url : String)
    (j : ℕ) : linesTotal (createPago db i m monto fecha url).2 j = linesTotal db j := rfl

/-- The line-insertion loop of `createCustomerOrder` leaves the order
table untouched and, for each order id, shifts the line sum of the
target order by exactly the accumulated total. -/
theorem insertarLineas_props (i : ℕ) :
    ∀ (vals : List ProductoValidado) (creados : List ProductoPedido) (tot : ℚ) (db : DB),
      (insertarLineas db i vals creados tot).2.pedidos = db.pedidos ∧
      (∀ j, linesTotal (insertarLineas db i vals creados tot).2 j =
        linesTotal db j +
          (if i == j then (insertarLineas db i vals creados tot).1.2 - tot else 0))
  | [], creados, tot, db => by
      refine ⟨rfl, fun j => ?_⟩
      show linesTotal db j = linesTotal db j + (if i == j then tot - tot else 0)
      by_cases h : (i == j) = true
      · rw [if_pos h]; ring
      · rw [if_neg h]; ring
  | item :: rest, creados, tot, db => by
      have hstep : insertarLineas db i (item :: rest) creados tot =
          insertarLineas (createProductoPedido db i item.idProducto item.cantidad
            item.precioUnitario (item.precioUnitario * (item.cantidad : ℚ))).2 i rest
            (creados ++ [(createProductoPedido db i item.idProducto item.cantidad
              item.precioUnitario (item.precioUnitario * (item.cantidad : ℚ))).1])
            (tot + item.precioUnitario * (item.cantidad : ℚ)) := rfl
      rw [hstep]
      obtain ⟨hped, htot⟩ := insertarLineas_props i rest
        (creados ++ [(createProductoPedido db i item.idProducto item.cantidad
          item.precioUnitario (item.precioUnitario * (item.cantidad : ℚ))).1])
        (tot + item.precioUnitario * (item.cantidad : ℚ))
        (createProductoPedido db i item.idProducto item.cantidad
          item.precioUnitario (item.precioUnitario * (item.cantidad : ℚ))).2
      refine ⟨by rw [hped]; rfl, fun j => ?_⟩
      rw [htot j]
      rw [linesTotal_createLinea db i item.idProducto item.cantidad item.precioUnitario
        (item.precioUnitario * (item.cantidad : ℚ)) j]
      by_cases h : (i == j) = true
      · simp only [if_pos h]; ring
      · simp only [if_neg h]; ring

theorem coherente_despues_find2 {α : Type} (db2 db0 : DB) (i : ℕ)
    (g : Pedido → α) (e : α) (hco2 : TotalesCoherentes db2)
    (hco0 : TotalesCoherentes db0) :
    TotalesCoherentes (match findPedido db2 i with
      | some pedidoActualizado => (g pedidoActualizado, db2)
      | none => (e, db0)).2 := by
  cases findPedido db2 i with
  | some pa => exact hco2
  | none => exact hco0

/-- The committed store of `createCustomerOrder` (fresh order, inserted
lines, total backfilled from the accumulated sum) satisfies the
total-equals-line-sum invariant. -/
theorem createCustomerOrder_db3_coherente (db : DB) (u : ℕ)
    (validados : List ProductoValidado) (idMesa : Option ℕ) (ahora : ℤ)
    (hbf : BuenForma db) (hinv : TotalesCoherentes db) :
    TotalesCoherentes (updatePedidoWith
      (insertarLineas (createPedido db u 0 "sin_confirmar" "fisico" ahora none idMesa).2
        (createPedido db u 0 "sin_confirmar" "fisico" ahora none idMesa).1.idPedido
        validados [] 0).2
      (createPedido db u 0 "sin_confirmar" "fisico" ahora none idMesa).1.idPedido
      (fun p => { p with total :=
        (insertarLineas (createPedido db u 0 "sin_confirmar" "fisico" ahora none idMesa).2
          (createPedido db u 0 "sin_confirmar" "fisico" ahora none idMesa).1.idPedido
          validados [] 0).1.2 })) := by
  obtain ⟨hped, htot⟩ := insertarLineas_props
    (createPedido db u 0 "sin_confirmar" "fisico" ahora none idMesa).1.idPedido validados []
    0 (createPedido db u 0 "sin_confirmar" "fisico" ahora none idMesa).2
  apply coherente_recompute
  · intro q; rfl
  · intro q
    dsimp only
    rw [htot]
    rw [if_pos (show ((createPedido db u 0 "sin_confirmar" "fisico" ahora none
        idMesa).1.idPedido == (createPedido db u 0 "sin_confirmar" "fisico" ahora none
        idMesa).1.idPedido) = true from by simp)]
    have h0 : linesTotal (createPedido db u 0 "sin_confirmar" "fisico" ahora none idMesa).2
        (createPedido db u 0 "sin_confirmar" "fisico" ahora none idMesa).1.idPedido = 0 :=
      linesTotal_fresco db hbf
    rw [h0]
    ring
  · intro q hq hqi
    rw [hped] at hq
    have hq2 : q ∈ db.pedidos ++
        [⟨db.nextPedido, u, 0, "sin_confirmar", "fisico", ahora, none, idMesa⟩] := hq
    rw [htot q.idPedido]
    rw [if_neg (show ¬(((createPedido db u 0 "sin_confirmar" "fisico" ahora none
        idMesa).1.idPedido == q.idPedido) = true) from by
      simp only [beq_iff_eq]
      exact fun hc => hqi hc.symm)]
    rw [add_zero]
    have hlt : linesTotal (createPedido db u 0 "sin_confirmar" "fisico" ahora none idMesa).2
        q.idPedido = linesTotal db q.idPedido := rfl
    rw [hlt]
    rcases List.mem_append.mp hq2 with hq3 | hq4
    · exact hinv q hq3
    · exfalso
      apply hqi
      have hqeq : q = ⟨db.nextPedido, u, 0, "sin_confirmar", "fisico", ahora, none,
          idMesa⟩ := by simpa using hq4
      rw [hqeq]
      rfl

theorem createCustomerOrder_coherente (env : Env) (db : DB) (idUsuarioEmpleado : ℕ)
    (productos : List ProductInput) (idMesa : Option ℕ)
    (hbf : BuenForma db) (hinv : TotalesCoherentes db) :
    TotalesCoherentes (createCustomerOrder env db idUsuarioEmpleado productos idMesa).2 := by
  unfold createCustomerOrder
  by_cases hvacio : productos.isEmpty = true
  · rw [if_pos hvacio]; exact hinv
  · rw [if_neg hvacio]
    cases hval : validarProductos env productos with
    | exn => exact hinv
    | err s => exact hinv
    | ok validados =>
        dsimp only
        cases idMesa with
        | none =>
            dsimp only
            by_cases hpdf : env.pdfFalla = true
            · rw [if_pos hpdf]; exact hinv
            · rw [if_neg hpdf]
              by_cases hmu : ((none : Option ℕ).isSome && env.mesaUpdateFalla) = true
              · rw [if_pos hmu]; exact hinv
              · rw [if_neg hmu]
                apply coherente_despues_find2
                · exact createCustomerOrder_db3_coherente db idUsuarioEmpleado validados
                    none env.ahora hbf hinv
                · exact hinv
        | some im =>
            dsimp only
            by_cases hmf : env.mesasFalla = true
            · rw [if_pos hmf]; exact hinv
            · rw [if_neg hmf]
              cases hfm : env.mesas.find? (fun m => m.idMesa == im) with
              | none => exact hinv
              | some mesa =>
                  dsimp only
                  by_cases hde : mesa.estado ≠ "Disponible"
                  · rw [if_pos hde]; exact hinv
                  · rw [if_neg hde]
                    dsimp only
                    by_cases hpdf : env.pdfFalla = true
                    · rw [if_pos hpdf]; exact hinv
                    · rw [if_neg hpdf]
                      by_cases hmu : ((some im).isSome && env.mesaUpdateFalla) = true
                      · rw [if_pos hmu]; exact hinv
                      · rw [if_neg hmu]
                        apply coherente_despues_find2
                        · exact createCustomerOrder_db3_coherente db idUsuarioEmpleado
                            validados (some im) env.ahora hbf hinv
                        · exact hinv

/-- The tail of `registerPayment` after the reservation step: every
remaining branch commits either the rolled-back store or the repriced
store (possibly with the receipt backfilled, which touches only the
payment table). -/
theorem coherente_rp_tail (db0 db3 : DB) (i j : ℕ) (b : Bool)
    (f : Pago → Pago) (invF : ℕ → Option Producto)
    (hco0 : TotalesCoherentes db0) (hco3 : TotalesCoherentes db3) :
    TotalesCoherentes (RegisterPaymentOutcome.db
      (match findPedido db3 i with
        | none => ⟨SR.exn, db0, invF⟩
        | some pedidoActualizado =>
            if b = true then ⟨SR.err 500, db0, invF⟩
            else
              match findPago (updatePagoWith db3 j f) j with
              | none => ⟨SR.exn, db0, invF⟩
              | some pagoFinal =>
                  ⟨SR.ok (pedidoActualizado, pagoFinal), updatePagoWith db3 j f, invF⟩)) := by
  cases findPedido db3 i with
  | none => exact hco0
  | some pa =>
      dsimp only
      by_cases hb : b = true
      · rw [if_pos hb]; exact hco0
      · rw [if_neg hb]
        cases findPago (updatePagoWith db3 j f) j with
        | none => exact hco0
        | some pf => exact hco3

/-- The committed store of `registerPayment` (payment row inserted, order
set to `pendiente` with the repriced rounded total) satisfies the
total-equals-line-sum invariant. -/
theorem registerPayment_db3_coherente (env : Env) (db : DB) (i m : ℕ) (dir : String)
    (hbf : BuenForma db) (hinv : TotalesCoherentes db) (hic : PreciosCents env) :
    TotalesCoherentes (updatePedidoWith
      (createPago (calcTotalPromosLoop env (productosByPedido db i) 0 db).2 i m
        (round2 (calcTotalPromosLoop env (productosByPedido db i) 0 db).1) env.ahora "").2
      i
      (fun p => { p with
        total := round2 (calcTotalPromosLoop env (productosByPedido db i) 0 db).1
        estado := "pendiente"
        direccionEntrega := some dir })) := by
  have hls : ∀ l ∈ productosByPedido db i,
      l ∈ db.productosPedido ∧ l.idPedido = i := by
    intro l hl
    have := List.mem_filter.mp hl
    exact ⟨this.1, by simpa using this.2⟩
  have hndls : ((productosByPedido db i).map (fun x => x.idProductoPedido)).Nodup :=
    ((List.filter_sublist db.productosPedido).map _).nodup hbf.1
  obtain ⟨hped, htot, hother⟩ := calcTotalPromosLoop_props env i
    (productosByPedido db i) 0 db hls hndls hbf.1
  have hcents : IsCents (calcTotalPromosLoop env (productosByPedido db i) 0 db).1 :=
    calcTotalPromosLoop_isCents env hic _ 0 db IsCents.zero
  have htot2 : linesTotal (calcTotalPromosLoop env (productosByPedido db i) 0 db).2 i =
      (calcTotalPromosLoop env (productosByPedido db i) 0 db).1 := by
    rw [htot]
    have hrfl : linesTotal db i =
        ((productosByPedido db i).map (fun x => x.subtotal)).sum := rfl
    rw [hrfl]
    ring
  apply coherente_recompute
  · intro q; rfl
  · intro q
    dsimp only
    rw [hcents.round2_fix]
    rw [linesTotal_createPago]
    rw [htot2]
  · intro q hq hqi
    rw [pedidos_createPago, hped] at hq
    rw [linesTotal_createPago, hother q.idPedido hqi]
    exact hinv q hq

theorem registerPayment_coherente (env : Env) (db : DB)
    (idPedido idUsuario idMetodoPago : ℕ) (direccionEntrega : Option String)
    (hbf : BuenForma db) (hinv : TotalesCoherentes db) (hic : PreciosCents env) :
    TotalesCoherentes (registerPayment env db idPedido idUsuario idMetodoPago
      direccionEntrega).db := by
  unfold registerPayment
  cases hp : findPedido db idPedido with
  | none => exact hinv
  | some pedido =>
      dsimp only
      by_cases hu : pedido.idUsuario ≠ idUsuario
      · rw [if_pos hu]; exact hinv
      · rw [if_neg hu]
        by_cases he : pedido.estado ≠ "sin_confirmar"
        · rw [if_pos he]; exact hinv
        · rw [if_neg he]
          cases hm : findMetodoPago db idMetodoPago with
          | none => exact hinv
          | some metodo =>
              dsimp only
              by_cases hvacio : (productosByPedido db idPedido).isEmpty = true
              · rw [if_pos hvacio]; exact hinv
              · rw [if_neg hvacio]
                cases hval : validateProductAvailability env
                    (productosByPedido db idPedido) with
                | exn => exact hinv
                | err s => exact hinv
                | ok a =>
                    dsimp only
                    cases hres : reservarInventario env.inventario
                        (productosByPedido db idPedido) with
                    | error e => exact hinv
                    | ok inventarioFinal =>
                        dsimp only
                        apply coherente_rp_tail
                        · exact hinv
                        · exact registerPayment_db3_coherente env db idPedido
                            idMetodoPago _ hbf hinv hic

/-- C6: after every state-mutating operation of the cart, order and
payment services (`addProductToCart`/addItem, `updateProductQuantity`,
`removeProductFromCart`, `addProductToOrder`, `removeProductFromOrder`,
`confirmOrder`, `createCustomerOrder` and `registerPayment`) — on
success and on failure alike — every order's `total` equals the sum of
the `subtotal` values of its lines, provided the pre-state already
satisfied that invariant with unique, in-range line ids and the
inventory collaborator serves whole-cent (`DECIMAL(10,2)`) prices. -/
theorem total_es_suma_de_subtotales (env : Env) (db : DB)
    (hbf : BuenForma db) (hinv : TotalesCoherentes db) (hic : PreciosCents env) :
    (∀ idUsuario idProducto cantidad,
      TotalesCoherentes (addProductToCart env db idUsuario idProducto cantidad).2) ∧
    (∀ idProductoPedido nuevaCantidad idUsuario,
      TotalesCoherentes (updateProductQuantity db idProductoPedido nuevaCantidad
        idUsuario).2) ∧
    (∀ idProductoPedido idUsuario,
      TotalesCoherentes (removeProductFromCart db idProductoPedido idUsuario).2) ∧
    (∀ idPedido idProducto cantidad,
      TotalesCoherentes (addProductToOrder env db idPedido idProducto cantidad).2) ∧
    (∀ idProductoPedido,
      TotalesCoherentes (removeProductFromOrder db idProductoPedido).2) ∧
    (∀ idUsuario direccionEntrega,
      TotalesCoherentes (confirmOrder env db idUsuario direccionEntrega).2) ∧
    (∀ idUsuarioEmpleado productos idMesa,
      TotalesCoherentes (createCustomerOrder env db idUsuarioEmpleado productos idMesa).2) ∧
    (∀ idPedido idUsuario idMetodoPago direccionEntrega,
      TotalesCoherentes (registerPayment env db idPedido idUsuario idMetodoPago
        direccionEntrega).db) :=
  ⟨fun u p c => addProductToCart_coherente env db u p c hbf hinv,
   fun l n u => updateProductQuantity_coherente db l n u hbf hinv,
   fun l u => removeProductFromCart_coherente db l u hbf hinv,
   fun i p c => addProductToOrder_coherente env db i p c hbf hinv,
   fun l => removeProductFromOrder_coherente db l hbf hinv,
   fun u d => confirmOrder_coherente env db u d hbf hinv hic,
   fun u pr me => createCustomerOrder_coherente env db u pr me hbf hinv,
   fun i u m d => registerPayment_coherente env db i u m d hbf hinv hic⟩

/-- Witness for C6 at a concrete input: the empty store is well-formed
and coherent, the trivial environment serves only whole-cent prices, and
after `addProductToCart` on that store every total still equals its line
sum. -/
theorem total_es_suma_de_subtotales_witness :
    BuenForma dbVacia ∧ TotalesCoherentes dbVacia ∧ PreciosCents envTrivial ∧
    TotalesCoherentes (addProductToCart envTrivial dbVacia 1 2 3).2 := by
  have hbf : BuenForma dbVacia := by
    refine ⟨by simp [dbVacia], ?_⟩
    intro l hl
    simp [dbVacia] at hl
  have hinv : TotalesCoherentes dbVacia := by
    intro p hp
    simp [dbVacia] at hp
  have hic : PreciosCents envTrivial := by
    intro pid prod h
    simp [envTrivial] at h
  exact ⟨hbf, hinv, hic,
    (total_es_suma_de_subtotales envTrivial dbVacia hbf hinv hic).1 1 2 3⟩
